import Mathlib

/-!
Verification development for the ArtigoGênio content-generation pipeline.

The TypeScript sources are shallowly embedded: strings are lists of
characters, asynchronous operations become explicit environments
(call-indexed streams of results), thrown errors become `Except` values,
and the single piece of global mutable state (the image-quota circuit
breaker flag) is threaded explicitly.  Each service variant in the
repository keeps its own namespace:

* `GS`  — `src/services/geminiService.ts`
* `P6`  — `src/unnamed/part_006`
* `P1`  — `src/unnamed/part_001`
* `P0`  — `src/unnamed/part_000`
* `Wizard` — `src/components/ArticleWizard.tsx`
-/

namespace ArtigoGenio

/-- Strings are modelled as lists of characters (JavaScript string values). -/
abbrev Str := List Char

/-- Model of `String.prototype.indexOf` restricted to pattern search:
first index at which `pat` occurs in the scanned list, if any. -/
def indexOf (pat : Str) : Str → Option Nat
  | [] => if pat = [] then some 0 else none
  | c :: rest =>
    if pat.isPrefixOf (c :: rest) then some 0
    else (indexOf pat rest).map (· + 1)

/-- Number of positions at which `pat` occurs (occurrences may overlap). -/
def countOccs (pat : Str) : Str → Nat
  | [] => 0
  | c :: rest =>
    (if pat.isPrefixOf (c :: rest) then 1 else 0) + countOccs pat rest

/-- Model of `String.prototype.includes`. -/
def hasSub (pat s : Str) : Bool := (indexOf pat s).isSome

/-- Model of `String.prototype.lastIndexOf` for a single character. -/
def lastIndexOfChar (c : Char) (s : Str) : Option Nat :=
  (List.range s.length).foldl
    (fun acc i => if s.get? i = some c then some i else acc) none

/-- Index of the first occurrence of a single character
(`String.prototype.indexOf` with a one-character needle). -/
def indexOfChar (c : Char) : Str → Option Nat
  | [] => none
  | d :: rest => if d = c then some 0 else (indexOfChar c rest).map (· + 1)

/-- Model of `String.prototype.trim` (strip leading and trailing whitespace). -/
def trimWS (s : Str) : Str :=
  (s.dropWhile Char.isWhitespace).reverse.dropWhile Char.isWhitespace |>.reverse

/-- Model of `String.prototype.startsWith`. -/
def startsWith (pat s : Str) : Bool := pat.isPrefixOf s

/-- Replace the first occurrence of `pat` by `rep`
(`String.prototype.replace` with a string pattern). -/
def replaceFirst (pat rep s : Str) : Str :=
  match indexOf pat s with
  | none => s
  | some i => s.take i ++ rep ++ s.drop (i + pat.length)



/-! ## Error and response model

A thrown JavaScript error is modelled by the fields the services inspect:
`status`, `code` and `message`.  A rejected promise becomes `Except.error`.
Asynchronous operations against the generative API are modelled by an
environment `Nat → Res α` giving the outcome of the n-th network call of a
run; embeddings additionally report instrumentation (how many calls were
made, which model/config each attempt used, which delays were slept),
which the source performs but does not return. -/

structure JsError where
  status : Option Nat
  code : Option Nat
  message : Option Str
deriving DecidableEq, Repr

abbrev Res (α : Type) := Except JsError α

/-- Model of a `GenerateContentResponse`: only the `text` field is inspected
by the embedded code paths. -/
structure Response where
  text : Option Str
deriving DecidableEq, Repr

/-- Configuration object for a generation request; the dispatcher only ever
inspects/removes `thinkingConfig` and `responseSchema`, so other keys are
kept abstract. -/
structure GenConfig where
  thinkingConfig : Option Nat
  responseSchema : Option Nat
  otherKeys : Nat
deriving DecidableEq, Repr

namespace GS

/-- Error classification of `retryWithBackoff` in `geminiService.ts`
(lines 87–90). -/
def isRetryable (e : JsError) : Bool :=
  e.status == some 429 || e.status == some 503 ||
    (match e.message with
     | some m =>
       hasSub ("429".data) m || hasSub ("overloaded".data) m
         || hasSub ("fetch".data) m || hasSub ("quota".data) m
     | none => false)

/-- Shallow embedding of `retryWithBackoff` (`geminiService.ts` 78–98).
`op` is the asynchronous operation as an environment indexed by call
number `k`.  The result is `(outcome, next call index, slept delays)`. -/
def retryWithBackoff {α : Type} (op : Nat → Res α) :
    Nat → Nat → Nat → Nat → Res α × Nat × List Nat
  | k, 0, _, _ =>
    match op k with
    | Except.ok a => (Except.ok a, k + 1, [])
    | Except.error e => (Except.error e, k + 1, [])
  | k, rem + 1, delay, factor =>
    match op k with
    | Except.ok a => (Except.ok a, k + 1, [])
    | Except.error e =>
      if isRetryable e then
        let r := retryWithBackoff op (k + 1) rem (delay * factor) factor
        (r.1, r.2.1, delay :: r.2.2)
      else (Except.error e, k + 1, [])

end GS

namespace GS

def MODEL_PRIMARY_TEXT : Str := ("gemini-3-flash-preview").data

def MODEL_FALLBACK_TEXT : Str := ("gemini-flash-latest").data

/-- Recoverable-error classification of `generateSmartContent`
(`geminiService.ts` line 114). -/
def isRecoverableError (e : JsError) : Bool :=
  e.status == some 429 || e.code == some 429 || e.status == some 404
    || e.code == some 404 ||
    (match e.message with
     | some m =>
       hasSub ("429".data) m || hasSub ("quota".data) m
         || hasSub ("RESOURCE_EXHAUSTED".data) m || hasSub ("NOT_FOUND".data) m
     | none => false)
    || e.status == some 503

/-- Shallow embedding of `generateSmartContent` (`geminiService.ts` 100–124).
Returns the outcome together with the list of `(model, config)` pairs used
by the individual `runRequest` invocations. -/
def generateSmartContent (env : Nat → Res Response) (model : Str) (config : GenConfig)
    (fallbackModel : Str) : Res Response × List (Str × GenConfig) :=
  let r1 := retryWithBackoff env 0 2 2000 2
  match r1.1 with
  | Except.ok a => (Except.ok a, List.replicate r1.2.1 (model, config))
  | Except.error e =>
    if isRecoverableError e = true ∧ model ≠ fallbackModel then
      let cleanConfig :=
        if config.thinkingConfig.isSome then { config with thinkingConfig := none }
        else config
      let r2 := retryWithBackoff env r1.2.1 2 4000 2
      (r2.1, List.replicate r1.2.1 (model, config)
        ++ List.replicate (r2.2.1 - r1.2.1) (fallbackModel, cleanConfig))
    else (Except.error e, List.replicate r1.2.1 (model, config))

end GS

namespace P6

def MODEL_PRIMARY_TEXT : Str := ("gemini-3-pro-preview").data

def MODEL_FALLBACK_TEXT : Str := ("gemini-3-flash-preview").data

def MODEL_IMAGE_FLASH : Str := ("gemini-2.5-flash-image").data

def MODEL_IMAGE_PRO : Str := ("gemini-3-pro-image-preview").data

def MODEL_IMAGE_BACKUP : Str := ("gemini-2.5-flash-image").data

/-- Quota classification in `part_006`'s `retryWithBackoff` (lines 123–125). -/
def isQuotaError (e : JsError) : Bool :=
  e.status == some 429 ||
    (match e.message with
     | some m =>
       hasSub ("429".data) m || hasSub ("quota".data) m
         || hasSub ("RESOURCE_EXHAUSTED".data) m
     | none => false)

/-- Network/overload classification in `part_006`'s `retryWithBackoff`
(lines 127–129). -/
def isNetworkError (e : JsError) : Bool :=
  e.status == some 503 ||
    (match e.message with
     | some m =>
       hasSub ("overloaded".data) m || hasSub ("fetch".data) m
         || hasSub ("Empty response".data) m
     | none => false)

/-- The replacement error thrown when an image call exhausts its quota
(`part_006` line 135). -/
def quotaImageError : JsError :=
  ⟨none, none, some (("Cota da API do Google (Imagens) excedida. Tente mais tarde.").data)⟩

/-- Shallow embedding of `part_006`'s `retryWithBackoff` (lines 112–151).
The session-global circuit-breaker flag `GLOBAL_IMAGE_QUOTA_EXHAUSTED` is
threaded explicitly; the result is
`(outcome, flag after the call, next call index, slept delays)`. -/
def retryWithBackoff {α : Type} (op : Nat → Res α) :
    Nat → Nat → Nat → Nat → Bool → Bool → Res α × Bool × Nat × List Nat
  | k, 0, _, _, isImageRequest, flag =>
    match op k with
    | Except.ok a => (Except.ok a, flag, k + 1, [])
    | Except.error e =>
      if isQuotaError e && isImageRequest then
        (Except.error quotaImageError, true, k + 1, [])
      else (Except.error e, flag, k + 1, [])
  | k, rem + 1, delay, factor, isImageRequest, flag =>
    match op k with
    | Except.ok a => (Except.ok a, flag, k + 1, [])
    | Except.error e =>
      if isQuotaError e && isImageRequest then
        (Except.error quotaImageError, true, k + 1, [])
      else if isQuotaError e || isNetworkError e then
        let waitTime := if isQuotaError e then max delay 30000 else delay
        let r := retryWithBackoff op (k + 1) rem (delay * factor) factor
          isImageRequest flag
        (r.1, r.2.1, r.2.2.1, waitTime :: r.2.2.2)
      else (Except.error e, flag, k + 1, [])

/-- The error produced by `part_006`'s empty-response validation inside
`runRequest` (line 164). -/
def emptyResponseError : JsError :=
  ⟨none, none, some (("Empty response from AI model").data)⟩

/-- Model of `runRequest` of `part_006`'s `generateSmartContent` (lines 160–167):
the raw call plus the empty-response validation. -/
def runRequestOf (env : Nat → Res Response) (k : Nat) : Res Response :=
  match env k with
  | Except.ok r =>
    match r.text with
    | some t => if trimWS t = [] then Except.error emptyResponseError else Except.ok r
    | none => Except.error emptyResponseError
  | Except.error e => Except.error e

/-- Recoverable-error classification of `part_006`'s `generateSmartContent`
(line 173): like the `geminiService.ts` one plus blank responses. -/
def isRecoverableError (e : JsError) : Bool :=
  e.status == some 429 || e.code == some 429 || e.status == some 404
    || e.code == some 404 ||
    (match e.message with
     | some m =>
       hasSub ("429".data) m || hasSub ("quota".data) m
         || hasSub ("RESOURCE_EXHAUSTED".data) m || hasSub ("NOT_FOUND".data) m
         || hasSub ("Empty response".data) m
     | none => false)
    || e.status == some 503

/-- Shallow embedding of `part_006`'s `generateSmartContent` (lines 153–188).
Text-path calls pass `isImageRequest = false`; the breaker flag is threaded
and returned.  Returns `(outcome, attempts as (model, config) pairs, flag)`. -/
def generateSmartContent (env : Nat → Res Response) (model : Str) (config : GenConfig)
    (fallbackModel : Str) (flag : Bool) :
    Res Response × List (Str × GenConfig) × Bool :=
  let r1 := retryWithBackoff (runRequestOf env) 0 2 4000 2 false flag
  match r1.1 with
  | Except.ok a => (Except.ok a, List.replicate r1.2.2.1 (model, config), r1.2.1)
  | Except.error e =>
    if isRecoverableError e = true ∧ model ≠ fallbackModel then
      let c1 :=
        if config.thinkingConfig.isSome then { config with thinkingConfig := none }
        else config
      let cleanConfig :=
        if c1.responseSchema.isSome then { c1 with responseSchema := none } else c1
      let r2 := retryWithBackoff (runRequestOf env) r1.2.2.1 2 6000 2 false r1.2.1
      (r2.1, List.replicate r1.2.2.1 (model, config)
        ++ List.replicate (r2.2.2.1 - r1.2.2.1) (fallbackModel, cleanConfig), r2.2.1)
    else (Except.error e, List.replicate r1.2.2.1 (model, config), r1.2.1)

end P6

/-! ## JSON values, `JSON.parse` and `JSON.stringify` -/

/-- JSON values.  `num` stores the raw numeral text; `undef` models a
JavaScript `undefined` property value (skipped by `JSON.stringify`,
never produced by parsing). -/
inductive Json where
  | null : Json
  | bool (b : Bool) : Json
  | num (raw : Str) : Json
  | str (s : Str) : Json
  | arr (items : List Json) : Json
  | obj (fields : List (Str × Json)) : Json
  | undef : Json

/-- JSON-grammar whitespace accepted by `JSON.parse`. -/
def jsonWS (c : Char) : Bool := c == ' ' || c == '\t' || c == '\n' || c == '\r'

def skipWS (s : Str) : Str := s.dropWhile jsonWS

def hexVal (c : Char) : Option Nat :=
  if '0' ≤ c ∧ c ≤ '9' then some (c.toNat - 48)
  else if 'a' ≤ c ∧ c ≤ 'f' then some (c.toNat - 87)
  else if 'A' ≤ c ∧ c ≤ 'F' then some (c.toNat - 55)
  else none

/-- Body of a JSON string literal after the opening quote.  Returns the
decoded characters and the remaining input after the closing quote. -/
def parseStringBody : Nat → Str → Option (Str × Str)
  | 0, _ => none
  | _, [] => none
  | fuel + 1, c :: rest =>
    if c = '"' then some ([], rest)
    else if c = '\\' then
      match rest with
      | [] => none
      | e :: rest2 =>
        if e = '"' then (parseStringBody fuel rest2).map (fun p => ('"' :: p.1, p.2))
        else if e = '\\' then (parseStringBody fuel rest2).map (fun p => ('\\' :: p.1, p.2))
        else if e = '/' then (parseStringBody fuel rest2).map (fun p => ('/' :: p.1, p.2))
        else if e = 'n' then (parseStringBody fuel rest2).map (fun p => ('\n' :: p.1, p.2))
        else if e = 't' then (parseStringBody fuel rest2).map (fun p => ('\t' :: p.1, p.2))
        else if e = 'r' then (parseStringBody fuel rest2).map (fun p => ('\r' :: p.1, p.2))
        else if e = 'b' then (parseStringBody fuel rest2).map (fun p => (Char.ofNat 8 :: p.1, p.2))
        else if e = 'f' then (parseStringBody fuel rest2).map (fun p => (Char.ofNat 12 :: p.1, p.2))
        else if e = 'u' then
          match rest2 with
          | h1 :: h2 :: h3 :: h4 :: rest3 =>
            match hexVal h1, hexVal h2, hexVal h3, hexVal h4 with
            | some a, some b, some c2, some d =>
              (parseStringBody fuel rest3).map
                (fun p => (Char.ofNat (((a * 16 + b) * 16 + c2) * 16 + d) :: p.1, p.2))
            | _, _, _, _ => none
          | _ => none
        else none
    else if c.toNat < 32 then none
    else (parseStringBody fuel rest).map (fun p => (c :: p.1, p.2))

def digitSpan (s : Str) : Str × Str := (s.takeWhile Char.isDigit, s.dropWhile Char.isDigit)

def parseFracPart (s : Str) : Option (Str × Str) :=
  match s with
  | '.' :: r =>
    let p := digitSpan r
    if p.1 = [] then none else some ('.' :: p.1, p.2)
  | _ => some ([], s)

def parseExpPart (s : Str) : Option (Str × Str) :=
  match s with
  | c :: r =>
    if c = 'e' ∨ c = 'E' then
      let sr : Str × Str :=
        match r with
        | '+' :: rr => (['+'], rr)
        | '-' :: rr => (['-'], rr)
        | _ => ([], r)
      let p := digitSpan sr.2
      if p.1 = [] then none else some (c :: (sr.1 ++ p.1), p.2)
    else some ([], c :: r)
  | [] => some ([], [])

/-- JSON numeral per the `JSON.parse` grammar; returns raw text and rest. -/
def parseNumber (s : Str) : Option (Str × Str) :=
  let ns : Str × Str :=
    match s with
    | '-' :: r => (['-'], r)
    | _ => ([], s)
  match ns.2 with
  | [] => none
  | c :: rest =>
    if ¬ c.isDigit then none
    else
      let ip : Str × Str := if c = '0' then (['0'], rest) else digitSpan (c :: rest)
      match parseFracPart ip.2 with
      | none => none
      | some (fp, r2) =>
        match parseExpPart r2 with
        | none => none
        | some (ep, r3) => some (ns.1 ++ ip.1 ++ fp ++ ep, r3)

mutual

/-- Recursive-descent JSON value parser (model of `JSON.parse`), with fuel. -/
def parseValue : Nat → Str → Option (Json × Str)
  | 0, _ => none
  | fuel + 1, s =>
    match skipWS s with
    | [] => none
    | c :: rest =>
      if c = 'n' then
        if (("ull").data).isPrefixOf rest then some (Json.null, rest.drop 3) else none
      else if c = 't' then
        if (("rue").data).isPrefixOf rest then some (Json.bool true, rest.drop 3) else none
      else if c = 'f' then
        if (("alse").data).isPrefixOf rest then some (Json.bool false, rest.drop 4) else none
      else if c = '"' then
        (parseStringBody (fuel + 1) rest).map (fun p => (Json.str p.1, p.2))
      else if c = '\x7b' then
        match skipWS rest with
        | '\x7d' :: r => some (Json.obj [], r)
        | s2 => parseMembers fuel s2 []
      else if c = '[' then
        match skipWS rest with
        | ']' :: r => some (Json.arr [], r)
        | s2 => parseItems fuel s2 []
      else
        (parseNumber (c :: rest)).map (fun p => (Json.num p.1, p.2))

/-- Object members after `\x7b` (and after each `,`). -/
def parseMembers : Nat → Str → List (Str × Json) → Option (Json × Str)
  | 0, _, _ => none
  | fuel + 1, s, acc =>
    match skipWS s with
    | '"' :: rest =>
      match parseStringBody (fuel + 1) rest with
      | none => none
      | some (key, r1) =>
        match skipWS r1 with
        | ':' :: r3 =>
          match parseValue fuel r3 with
          | none => none
          | some (v, r4) =>
            match skipWS r4 with
            | ',' :: r6 => parseMembers fuel r6 (acc ++ [(key, v)])
            | '\x7d' :: r6 => some (Json.obj (acc ++ [(key, v)]), r6)
            | _ => none
        | _ => none
    | _ => none

/-- Array items after `[` (and after each `,`). -/
def parseItems : Nat → Str → List Json → Option (Json × Str)
  | 0, _, _ => none
  | fuel + 1, s, acc =>
    match parseValue fuel s with
    | none => none
    | some (v, r1) =>
      match skipWS r1 with
      | ',' :: r2 => parseItems fuel r2 (acc ++ [v])
      | ']' :: r2 => some (Json.arr (acc ++ [v]), r2)
      | _ => none

end

/-- Model of `JSON.parse`: parse one value and require only whitespace after. -/
def jsonParse (s : Str) : Option Json :=
  match parseValue (s.length + 1) s with
  | some (v, rest) => if skipWS rest = [] then some v else none
  | none => none

end ArtigoGenio

namespace ArtigoGenio

/-! ## `JSON.stringify(x, null, 2)` -/

/-- Escape one character for a JSON string literal, as `JSON.stringify`
does. -/
def jsonEscapeChar (c : Char) : Str :=
  if c = '"' then ('\\' :: ['"'])
  else if c = '\\' then ('\\' :: ['\\'])
  else if c = '\n' then ('\\' :: ['n'])
  else if c = '\t' then ('\\' :: ['t'])
  else if c = '\r' then ('\\' :: ['r'])
  else if c.toNat = 8 then ('\\' :: ['b'])
  else if c.toNat = 12 then ('\\' :: ['f'])
  else if c.toNat < 32 then
    let hx := fun (n : Nat) => if n < 10 then Char.ofNat (48 + n) else Char.ofNat (87 + n - 10)
    ('\\' :: 'u' :: '0' :: '0' :: [hx (c.toNat / 16), hx (c.toNat % 16)])
  else [c]

def jsonQuote (s : Str) : Str := '"' :: (s.flatMap jsonEscapeChar ++ ['"'])

def nlIndent (level : Nat) : Str := '\n' :: List.replicate (2 * level) ' '

def Json.isUndef : Json → Bool
  | Json.undef => true
  | _ => false

mutual

/-- Model of `JSON.stringify(value, null, 2)` (pretty printing with a
two-space indent).  Properties whose value is `undefined` are omitted from
objects, exactly as in JavaScript. -/
def jsonStringifyGo : Nat → Json → Str
  | _, Json.null => ("null").data
  | _, Json.undef => ("null").data
  | _, Json.bool true => ("true").data
  | _, Json.bool false => ("false").data
  | _, Json.num raw => raw
  | _, Json.str s => jsonQuote s
  | level, Json.arr items =>
    match items with
    | [] => ("[]").data
    | _ =>
      '[' :: (List.intercalate ([',']) (jsonStringifyItems (level + 1) items)
        ++ nlIndent level ++ [']'])
  | level, Json.obj fields =>
    match jsonStringifyFields (level + 1) fields with
    | [] => ("\x7b\x7d").data
    | parts =>
      '\x7b' :: (List.intercalate ([',']) parts ++ nlIndent level ++ ['\x7d'])

def jsonStringifyItems : Nat → List Json → List Str
  | _, [] => []
  | level, it :: rest =>
    (nlIndent level ++ jsonStringifyGo level it) :: jsonStringifyItems level rest

def jsonStringifyFields : Nat → List (Str × Json) → List Str
  | _, [] => []
  | level, (k, v) :: rest =>
    if Json.isUndef v then jsonStringifyFields level rest
    else (nlIndent level ++ jsonQuote k ++ (':' :: ' ' :: jsonStringifyGo level v))
      :: jsonStringifyFields level rest

end

def jsonStringify (j : Json) : Str := jsonStringifyGo 0 j

/-! ## `cleanAndParseJSON` (identical in `geminiService.ts` 41–76 and
`part_006` 64–101) -/

def emptyResponseMsg : Str := ("A IA retornou uma resposta vazia (sem conteúdo).").data

def invalidJsonMsg : Str := ("A resposta da IA não é um JSON válido. Tente novamente.").data

def tripleFence : Str := ("```").data

/-- Case-insensitive prefix test (for the optional `json` language tag of
the fence regex, which carries the `i` flag). -/
def ciStarts (pat s : Str) : Bool := (pat.map Char.toLower).isPrefixOf (s.map Char.toLower)

/-- Model of the fence regex match: content of the first markdown code
fence (language tag consumed), or `none` when the text has no complete
fence.  The surrounding whitespace handling of the regex is subsumed by
the `trim` the caller applies to the captured group. -/
def extractFenced (s : Str) : Option Str :=
  match indexOf tripleFence s with
  | none => none
  | some i =>
    let after := s.drop (i + 3)
    let afterTag := if ciStarts (("json").data) after then after.drop 4 else after
    match indexOf tripleFence afterTag with
    | none => none
    | some j => some (afterTag.take j)

/-- Brace/bracket slicing of `cleanAndParseJSON` (lines 52–68): cut from the
first opening brace/bracket to the last closing one when that span is
non-degenerate. -/
def sliceBraces (s : Str) : Str :=
  let firstBrace := indexOfChar '\x7b' s
  let firstBracket := indexOfChar '[' s
  let start : Option Nat :=
    match firstBrace, firstBracket with
    | some b, some k => some (min b k)
    | some b, none => some b
    | none, k => k
  let lastBrace := lastIndexOfChar '\x7d' s
  let lastBracket := lastIndexOfChar ']' s
  let stop : Option Nat :=
    match lastBrace, lastBracket with
    | some b, some k => some (max b k)
    | some b, none => some b
    | none, k => k
  match start, stop with
  | some a, some b => if a < b then (s.drop a).take (b + 1 - a) else s
  | _, _ => s

/-- The slice of the input that `cleanAndParseJSON` hands to `JSON.parse`. -/
def normalizedSlice (t : Str) : Str :=
  let c0 := trimWS t
  let c1 :=
    match extractFenced c0 with
    | some inner => trimWS inner
    | none => c0
  sliceBraces c1

/-- Shallow embedding of `cleanAndParseJSON`.  The argument is
`string | undefined`; thrown errors carry their message. -/
def cleanAndParseJSON (text : Option Str) : Except Str Json :=
  match text with
  | none => Except.error emptyResponseMsg
  | some t =>
    if trimWS t = [] then Except.error emptyResponseMsg
    else
      match jsonParse (normalizedSlice t) with
      | some v => Except.ok v
      | none => Except.error invalidJsonMsg

/-! ## Domain data model (from `src/types.ts`) -/

structure SeoOpportunities where
  featuredSnippet : Str
  paa : List Str
  googleNews : Str
deriving DecidableEq, Repr

structure SeoData where
  seoTitle : Str
  metaDescription : Str
  slug : Str
  targetKeyword : Str
  synonyms : List Str
  relatedKeyphrase : Str
  tags : List Str
  lsiKeywords : List Str
  opportunities : SeoOpportunities
deriving DecidableEq, Repr

/-- The `VideoData` record; optional string fields are modelled as plain strings with
`[]` playing the role of the JavaScript falsy `undefined`/`""` (the code
only ever tests them for truthiness or interpolates them). -/
structure VideoData where
  query : Str
  title : Str
  channel : Str
  url : Str
  embedHtml : Str
  thumbnailUrl : Str
  caption : Str
  altText : Str
deriving DecidableEq, Repr, Inhabited

structure ImageSpec where
  role : Str
  aspectRatio : Str
  prompt : Str
  alt : Str
  title : Str
  caption : Str
  filename : Str
  url : Str
deriving DecidableEq, Repr

structure SerpResult where
  competitorTitles : List Str
  contentGaps : List Str
  strategy : Str
  questions : List Str
  lsiKeywords : List Str
deriving DecidableEq, Repr

structure Author where
  id : Str
  name : Str
  bio : Str
  photoUrl : Str
  expertise : List Str
deriving DecidableEq, Repr

inductive ArtStatus where
  | draft
  | generating
  | completed
  | published
deriving DecidableEq, Repr

/-- The `ArticleData` aggregate root.  Fields that `types.ts` marks optional
are `Option`s, because `undefined` is observable (`JSON.stringify` drops
such keys, template interpolation prints `undefined`). -/
structure ArticleData where
  id : Str
  topic : Str
  targetKeyword : Str
  language : Str
  wordCount : Str
  siteUrl : Option Str
  authorId : Option Str
  title : Option Str
  subtitle : Option Str
  htmlContent : Option Str
  metaDescription : Option Str
  metaKeywords : Option (List Str)
  seoData : Option SeoData
  schemaJsonLd : Option Str
  wordpressPostJson : Option Str
  videoData : Option VideoData
  imageSpecs : Option (List ImageSpec)
  serpAnalysis : Option SerpResult
  seoScore : Option Nat
  eeatScore : Option Nat
  status : ArtStatus
  createdAt : Option Str
deriving DecidableEq, Repr

/-! ## Metadata generation fallbacks (claim C8) -/

namespace GS

/-- The deterministic fallback `SeoData` of `generateMetadata`
(`geminiService.ts` line 322). -/
def generateMetadataFallback (keyword : Str) : SeoData :=
  { seoTitle := keyword
    metaDescription := ("Artigo sobre ").data ++ keyword
    slug := keyword.map (fun c => if c = ' ' then '-' else c)
    targetKeyword := keyword
    synonyms := []
    relatedKeyphrase := []
    tags := []
    lsiKeywords := []
    opportunities := ⟨[], [], []⟩ }

/-- Shallow embedding of `generateMetadata` (`geminiService.ts` 313–324):
`body` is the outcome of the `generateSmartContent` + `cleanAndParseJSON`
try-block; any failure falls back to the keyword-derived default. -/
def generateMetadata (body : Except JsError SeoData) (keyword : Str) : SeoData :=
  match body with
  | Except.ok d => d
  | Except.error _ => generateMetadataFallback keyword

end GS

namespace P1

/-- The deterministic fallback `SeoData` of `part_001`'s `generateMetadata`
(lines 922–933); unlike the `geminiService.ts` variant it truncates. -/
def generateMetadataFallback (keyword : Str) : SeoData :=
  { seoTitle := (keyword ++ (": Guia Completo").data).take 60
    metaDescription := ((("Saiba tudo sobre ").data ++ keyword ++ (". Guia completo.").data).take 156)
    slug := (keyword.map Char.toLower).map (fun c => if c = ' ' then '-' else c)
    targetKeyword := keyword
    synonyms := []
    relatedKeyphrase := []
    tags := []
    lsiKeywords := []
    opportunities := ⟨[], [], []⟩ }

/-- Shallow embedding of `part_001`'s `generateMetadata` (lines 875–934). -/
def generateMetadata (body : Except JsError SeoData) (keyword : Str) : SeoData :=
  match body with
  | Except.ok d => d
  | Except.error _ => generateMetadataFallback keyword

end P1

/-! ## Video-ID extraction and the video resolver (claim C7)

The extraction regexes are embedded as explicit backtracking matchers with
the exact alternative order and greediness of the JavaScript engine. -/

/-- JavaScript `.` (without the `s` flag): any character except line
terminators. -/
def jsDot (c : Char) : Bool :=
  !(c == '\n' || c == '\r' || c.toNat == 8232 || c.toNat == 8233)

/-- Try candidate lengths for a greedy `*` quantifier: `hi`, `hi-1`, …, `0`. -/
def tryLensDown (k : Nat → Option Str) : Nat → Option Str
  | 0 => k 0
  | n + 1 =>
    match k (n + 1) with
    | some r => some r
    | none => tryLensDown k n

/-- Try candidate lengths for a greedy `+` quantifier: `hi`, `hi-1`, …, `1`. -/
def tryLensDown1 (k : Nat → Option Str) : Nat → Option Str
  | 0 => none
  | n + 1 =>
    match k (n + 1) with
    | some r => some r
    | none => tryLensDown1 k n

/-- Capture group `(cls{11})`: exactly eleven characters of the class. -/
def capture11 (cls : Char → Bool) (u : Str) : Option Str :=
  let c := u.take 11
  if c.length = 11 ∧ c.all cls = true then some c else none

/-- Match a literal and continue. -/
def litThen (lit : Str) (u : Str) (k : Str → Option Str) : Option Str :=
  if lit.isPrefixOf u then k (u.drop lit.length) else none

/-- Character class `[^"&?\/\s]` of the `geminiService.ts` capture group. -/
def clsNotDelim (c : Char) : Bool :=
  !(c == '"' || c == '&' || c == '?' || c == '/' || c.isWhitespace)

/-- Character class `[\w-]` of the `part_006` capture group. -/
def clsWordDash (c : Char) : Bool :=
  ('a' ≤ c ∧ c ≤ 'z') ∨ ('A' ≤ c ∧ c ≤ 'Z') ∨ ('0' ≤ c ∧ c ≤ '9') ∨ c = '_' ∨ c = '-'

/-- Branch `[^\/]+\/.+\/` followed by the capture group. -/
def branchPathPath (cls : Char → Bool) (u : Str) : Option Str :=
  tryLensDown1 (fun n1 =>
    match u.drop n1 with
    | '/' :: u2 =>
      tryLensDown1 (fun n2 =>
        match u2.drop n2 with
        | '/' :: u4 => capture11 cls u4
        | _ => none) ((u2.takeWhile jsDot).length)
    | _ => none) ((u.takeWhile (fun c => c != '/')).length)

/-- Branch `(?:v|e(?:mbed)?)\/` followed by the capture group. -/
def branchVE (cls : Char → Bool) (u : Str) : Option Str :=
  (litThen (("v/").data) u (capture11 cls))
    <|> (litThen (("embed/").data) u (capture11 cls))
    <|> (litThen (("e/").data) u (capture11 cls))

/-- Branch `.*[?&]v=` followed by the capture group. -/
def branchQueryV (cls : Char → Bool) (u : Str) : Option Str :=
  tryLensDown (fun n =>
    match u.drop n with
    | c :: u2 =>
      if c = '?' ∨ c = '&' then litThen (("v=").data) u2 (capture11 cls) else none
    | [] => none) ((u.takeWhile jsDot).length)

/-- Scan start positions left to right (leftmost-match semantics). -/
def scanMatch (f : Str → Option Str) : Str → Option Str
  | [] => f []
  | c :: rest =>
    match f (c :: rest) with
    | some r => some r
    | none => scanMatch f rest

namespace GS

/-- The `geminiService.ts` extraction regex (line 144):
`(?:youtube\.com\/(?:[^\/]+\/.+\/|(?:v|e(?:mbed)?)\/|.*[?&]v=)|youtu\.be\/)([^"&?\/\s]{11})`. -/
def matchAtPos (u : Str) : Option Str :=
  (litThen (("youtube.com/").data) u
      (fun u1 => branchPathPath clsNotDelim u1 <|> branchVE clsNotDelim u1
        <|> branchQueryV clsNotDelim u1))
    <|> litThen (("youtu.be/").data) u (capture11 clsNotDelim)

def extractVideoId (url : Str) : Option Str := scanMatch matchAtPos url

end GS

namespace P6

/-- The `part_006` extraction regex (line 278), which adds the
`youtube\.com\/shorts\/` alternative and captures `[\w-]{11}`. -/
def matchAtPos (u : Str) : Option Str :=
  (litThen (("youtube.com/").data) u
      (fun u1 => branchPathPath clsWordDash u1 <|> branchVE clsWordDash u1
        <|> branchQueryV clsWordDash u1))
    <|> litThen (("youtu.be/").data) u (capture11 clsWordDash)
    <|> litThen (("youtube.com/shorts/").data) u (capture11 clsWordDash)

def extractVideoId (url : Str) : Option Str := scanMatch matchAtPos url

end P6

/-- The privacy-respecting embed markup derived from an extracted video id
(identical template in both service variants). -/
def embedHtmlOf (videoId embedTitle : Str) : Str :=
  ("<iframe width=\"100%\" height=\"100%\" src=\"https://www.youtube-nocookie.com/embed/").data
    ++ videoId ++ ("\" title=\"").data ++ embedTitle
    ++ ("\" frameborder=\"0\" allow=\"accelerometer; autoplay; clipboard-write; encrypted-media; gyroscope; picture-in-picture\" allowfullscreen></iframe>").data

/-- The maximum-resolution thumbnail derived from an extracted video id. -/
def thumbnailUrlOf (videoId : Str) : Str :=
  ("https://img.youtube.com/vi/").data ++ videoId ++ ("/maxresdefault.jpg").data

/-- The structured payload parsed out of the model response inside
`findRealYoutubeVideo`; absent/empty fields are `[]` (JavaScript falsy). -/
structure ParsedVideo where
  title : Str
  channel : Str
  url : Str
  caption : Str
  altText : Str
deriving DecidableEq, Repr

namespace GS

/-- Shallow embedding of the validation/derivation tail of
`findRealYoutubeVideo` (`geminiService.ts` 128–162): `result` is the payload
returned by the search-grounded call after `cleanAndParseJSON`. -/
def findRealYoutubeVideo (query : Str) (result : ParsedVideo) : Except Str VideoData :=
  if result.url = [] then Except.error (("No URL found for the video.").data)
  else
    match extractVideoId result.url with
    | some videoId =>
      Except.ok
        { query := query
          title := if result.title = [] then ("Video").data else result.title
          channel := if result.channel = [] then ("YouTube").data else result.channel
          url := result.url
          embedHtml := embedHtmlOf videoId result.title
          thumbnailUrl := thumbnailUrlOf videoId
          caption :=
            if result.caption = [] then ("Assista ao vídeo: ").data ++ query
            else result.caption
          altText :=
            if result.altText = [] then ("Vídeo sobre ").data ++ query else result.altText }
    | none => Except.error (("Invalid YouTube URL format.").data)

end GS

namespace P6

/-- Shallow embedding of the validation/derivation tail of `part_006`'s
`findRealYoutubeVideo` (lines 273–298), after the parse-or-fallback logic
has produced `result`. -/
def findRealYoutubeVideo (query : Str) (result : ParsedVideo) : Except Str VideoData :=
  if result.url = []
      ∨ (hasSub (("youtube.com").data) result.url = false
          ∧ hasSub (("youtu.be").data) result.url = false) then
    Except.error (("Invalid URL returned by AI.").data)
  else
    match extractVideoId result.url with
    | some videoId =>
      let embedTitle :=
        if result.altText ≠ [] then result.altText
        else if result.title ≠ [] then result.title
        else ("Video Player").data
      Except.ok
        { query := query
          title := if result.title = [] then ("Vídeo Recomendado").data else result.title
          channel := if result.channel = [] then ("YouTube").data else result.channel
          url := result.url
          embedHtml := embedHtmlOf videoId embedTitle
          thumbnailUrl := thumbnailUrlOf videoId
          caption :=
            if result.caption = [] then ("Assista: ").data ++ result.title
            else result.caption
          altText :=
            if result.altText = [] then ("Vídeo sobre ").data ++ query else result.altText }
    | none => Except.error (("Invalid YouTube ID extracted.").data)

end P6

/-! ## Technical SEO payload builder (claim C9)

`generateTechnicalSeo` is textually identical in `geminiService.ts`
(341–364) and `part_006` (729–752).  Its single effect — reading the wall
clock via `new Date().toISOString()` — is made explicit as the `now`
argument. -/

def jstr (s : Str) : Json := Json.str s

def joptStr : Option Str → Json
  | some s => Json.str s
  | none => Json.undef

/-- Shallow embedding of `generateTechnicalSeo`.  Returns
`(schemaJsonLd, wordpressPostJson)`. -/
def generateTechnicalSeo (article : ArticleData) (author : Option Author) (now : Str) :
    Str × Str :=
  let siteUrl :=
    match article.siteUrl with
    | some u => if u = [] then ("https://example.com").data else u
    | none => ("https://example.com").data
  let slugStr :=
    match article.seoData with
    | some sd => sd.slug
    | none => ("undefined").data
  let permalink := siteUrl ++ ('/' :: slugStr)
  let heroImage := (article.imageSpecs.getD []).find? (fun i => i.role == ("hero").data)
  let imageUrl :=
    match heroImage with
    | some h =>
      if h.url ≠ [] ∧ startsWith (("data:").data) h.url = false then h.url
      else siteUrl ++ ("/default-image.jpg").data
    | none => siteUrl ++ ("/default-image.jpg").data
  let authorName :=
    match author with
    | some a => if a.name = [] then ("Redação").data else a.name
    | none => ("Redação").data
  let headline :=
    match article.seoData with
    | some sd => Json.str sd.seoTitle
    | none => Json.undef
  let schemaGraph : Json := Json.obj
    [ (("@context").data, jstr (("https://schema.org").data))
    , (("@graph").data, Json.arr
        [ Json.obj
            [ (("@type").data, jstr (("Organization").data))
            , (("@id").data, jstr (siteUrl ++ ("/#organization").data))
            , (("name").data, jstr (("ArtigoGênio Publisher").data))
            , (("url").data, jstr siteUrl) ]
        , Json.obj
            [ (("@type").data, jstr (("WebSite").data))
            , (("@id").data, jstr (siteUrl ++ ("/#website").data))
            , (("url").data, jstr siteUrl)
            , (("publisher").data, Json.obj
                [ (("@id").data, jstr (siteUrl ++ ("/#organization").data)) ]) ]
        , Json.obj
            [ (("@type").data, jstr (("ImageObject").data))
            , (("@id").data, jstr (permalink ++ ("/#primaryimage").data))
            , (("url").data, jstr imageUrl)
            , (("width").data, Json.num (("1200").data))
            , (("height").data, Json.num (("675").data)) ]
        , Json.obj
            [ (("@type").data, Json.arr [jstr (("Article").data), jstr (("NewsArticle").data)])
            , (("@id").data, jstr (permalink ++ ("/#article").data))
            , (("isPartOf").data, Json.obj [ (("@id").data, jstr permalink) ])
            , (("author").data, Json.obj
                [ (("@type").data, jstr (("Person").data))
                , (("name").data, jstr authorName) ])
            , (("headline").data, headline)
            , (("datePublished").data, jstr now)
            , (("dateModified").data, jstr now)
            , (("mainEntityOfPage").data, Json.obj [ (("@id").data, jstr permalink) ])
            , (("publisher").data, Json.obj
                [ (("@id").data, jstr (siteUrl ++ ("/#organization").data)) ])
            , (("image").data, Json.obj
                [ (("@id").data, jstr (permalink ++ ("/#primaryimage").data)) ]) ] ]) ]
  let wpPayload : Json := Json.obj
    [ (("title").data, joptStr article.title)
    , (("content").data, joptStr article.htmlContent)
    , (("status").data, jstr (("draft").data))
    , (("slug").data,
        match article.seoData with
        | some sd => Json.str sd.slug
        | none => Json.undef)
    , (("excerpt").data,
        match article.seoData with
        | some sd => Json.str sd.metaDescription
        | none => Json.undef)
    , (("meta").data, Json.obj
        [ (("yoast_wpseo_title").data,
            match article.seoData with
            | some sd => Json.str sd.seoTitle
            | none => Json.undef)
        , (("yoast_wpseo_metadesc").data,
            match article.seoData with
            | some sd => Json.str sd.metaDescription
            | none => Json.undef) ]) ]
  (jsonStringify schemaGraph, jsonStringify wpPayload)

/-! ## Image generation with the quota circuit breaker (claim C3) -/

/-- Characters `encodeURIComponent` leaves unescaped. -/
def uriUnreserved (c : Char) : Bool :=
  ('a' ≤ c ∧ c ≤ 'z') ∨ ('A' ≤ c ∧ c ≤ 'Z') ∨ ('0' ≤ c ∧ c ≤ '9')
    ∨ c = '-' ∨ c = '_' ∨ c = '.' ∨ c = '!' ∨ c = '~' ∨ c = '*'
    ∨ c = Char.ofNat 39 ∨ c = '(' ∨ c = ')'

def utf8Bytes (c : Char) : List Nat :=
  let n := c.toNat
  if n < 128 then [n]
  else if n < 2048 then [192 + n / 64, 128 + n % 64]
  else if n < 65536 then [224 + n / 4096, 128 + (n / 64) % 64, 128 + n % 64]
  else [240 + n / 262144, 128 + (n / 4096) % 64, 128 + (n / 64) % 64, 128 + n % 64]

def hexDigitUpper (n : Nat) : Char :=
  if n < 10 then Char.ofNat (48 + n) else Char.ofNat (55 + n)

/-- Model of `encodeURIComponent`. -/
def encodeURIComponent (s : Str) : Str :=
  s.flatMap (fun c =>
    if uriUnreserved c then [c]
    else (utf8Bytes c).flatMap (fun b => ['%', hexDigitUpper (b / 16), hexDigitUpper (b % 16)]))

/-- One part of an image response; `inlineData` holds the base64 payload. -/
structure ImgPart where
  inlineData : Option Str
deriving DecidableEq, Repr

/-- Model of an image `GenerateContentResponse`:
`candidates?.[0]?.content?.parts`. -/
structure ImgResponse where
  parts : Option (List ImgPart)
deriving DecidableEq, Repr

namespace P6

/-- The placeholder returned by the circuit-breaker short circuit
(`part_006` lines 756–760): a fixed 1200×800 reference annotated with the
prompt truncated to 50 characters. -/
def circuitBreakerPlaceholder (prompt : Str) : Str :=
  ("https://placehold.co/1200x800/1e293b/ffffff?text=").data
    ++ encodeURIComponent (prompt.take 50) ++ ("...").data

/-- Aspect-ratio sanitization of `generateImageFromPrompt`
(`part_006` lines 770–790). -/
def validAspectRatioOf (aspectRatio : Str) : Str :=
  let supported := [("1:1").data, ("3:4").data, ("4:3").data, ("9:16").data, ("16:9").data]
  if supported.contains aspectRatio then aspectRatio
  else if aspectRatio = ("2:3").data then ("3:4").data
  else if aspectRatio = ("3:2").data then ("4:3").data
  else if aspectRatio = ("21:9").data then ("16:9").data
  else ("1:1").data

/-- The placeholder returned by the quota catch-branch
(`part_006` lines 834–838). -/
def quotaPlaceholder (validAspectRatio : Str) : Str :=
  let width : Nat := if validAspectRatio = ("16:9").data then 1200 else 1024
  let height : Nat := if validAspectRatio = ("16:9").data then 675 else 1024
  ("https://placehold.co/").data ++ (toString width).data ++ ('x' :: (toString height).data)
    ++ ("/EEE/31343C?text=").data
    ++ encodeURIComponent (("Quota Exceeded - Placeholder").data)

/-- First `part.inlineData.data` of the response parts (`part_006` 811–817);
an empty payload string is JavaScript-falsy and skipped. -/
def firstInlineData (r : ImgResponse) : Option Str :=
  match r.parts with
  | none => none
  | some ps =>
    ps.findSome? (fun p =>
      match p.inlineData with
      | some d => if d = [] then none else some d
      | none => none)

def inlineDataMissingError : JsError :=
  ⟨none, none, some (("A IA não retornou dados de imagem válidos (inlineData missing).").data)⟩

/-- Shallow embedding of `part_006`'s `generateImageFromPrompt` (754–842).
The breaker flag is threaded explicitly; the result also reports the flag
after the call and how many network requests were issued, which is what
the circuit-breaker claims are about. -/
def generateImageFromPrompt (env : Nat → Res ImgResponse) (flag : Bool)
    (prompt : Str) (aspectRatio : Str) (model : Str) (_resolution : Str) :
    Res Str × Bool × Nat :=
  if flag then (Except.ok (circuitBreakerPlaceholder prompt), flag, 0)
  else
    let actualModel :=
      if model = ("gemini-2.5-flash-image").data then MODEL_IMAGE_FLASH else model
    let validAspectRatio := validAspectRatioOf aspectRatio
    let rb := retryWithBackoff env 0 1 4000 2 true flag
    let flag1 := rb.2.1
    let calls1 := rb.2.2.1
    let inner : Res Str :=
      match rb.1 with
      | Except.error e => Except.error e
      | Except.ok response =>
        match firstInlineData response with
        | some d => Except.ok d
        | none => Except.error inlineDataMissingError
    match inner with
    | Except.ok d => (Except.ok d, flag1, calls1)
    | Except.error err =>
      let msg := err.message.getD []
      if hasSub (("429").data) msg || hasSub (("quota").data) msg
          || hasSub (("RESOURCE_EXHAUSTED").data) msg || flag1 then
        let backupCalls := if actualModel ≠ MODEL_IMAGE_BACKUP ∧ flag1 = false then 1 else 0
        (Except.ok (quotaPlaceholder validAspectRatio), flag1, calls1 + backupCalls)
      else (Except.error err, flag1, calls1)

/-- Shallow embedding of `part_006`'s `editGeneratedImage` (844–859). -/
def editGeneratedImage (env : Nat → Res ImgResponse) (flag : Bool) :
    Res Str × Bool × Nat :=
  if flag then
    (Except.error ⟨none, none, some (("Cota de imagem esgotada na sessão.").data)⟩, flag, 0)
  else
    let rb := retryWithBackoff env 0 3 3000 2 true flag
    match rb.1 with
    | Except.error e => (Except.error e, rb.2.1, rb.2.2.1)
    | Except.ok response =>
      match firstInlineData response with
      | some d => (Except.ok d, rb.2.1, rb.2.2.1)
      | none =>
        (Except.error ⟨none, none,
          some (("Falha ao editar imagem (dados inválidos retornados).").data)⟩,
          rb.2.1, rb.2.2.1)

end P6

/-! ## Idempotent video injection (claim C2)

`injectVideoIntoHtml` is textually identical in `part_006` (305–333) and
`part_004` (251–279). -/

def videoStartMarker : Str := ("<div id=\"featured-video-container\"").data

def videoEndMarker : Str := ("<!-- video-end -->").data

/-- The freshly built video block (`part_006` lines 308–318). -/
def buildVideoSection (v : VideoData) : Str :=
  ("\n<div id=\"featured-video-container\" class=\"video-container my-8\">\n  <h3 class=\"text-lg font-bold mb-2 flex items-center gap-2\">\n    <svg xmlns=\"http://www.w3.org/2000/svg\" width=\"24\" height=\"24\" viewBox=\"0 0 24 24\" fill=\"none\" stroke=\"currentColor\" stroke-width=\"2\" stroke-linecap=\"round\" stroke-linejoin=\"round\" class=\"text-red-600\"><rect width=\"20\" height=\"15\" x=\"2\" y=\"7\" rx=\"2\" ry=\"2\"/><polyline points=\"17 12 12 7 12 17\"/></svg>\n    Assista: ").data
    ++ v.title
    ++ ("\n  </h3>\n  <div class=\"aspect-video bg-slate-100 rounded-xl overflow-hidden shadow-sm\">\n    ").data
    ++ v.embedHtml
    ++ ("\n  </div>\n  ").data
    ++ (if v.caption ≠ [] then
          ("<p class=\"text-sm text-slate-500 mt-2 italic\">").data ++ v.caption
            ++ ("</p>").data
        else [])
    ++ ("\n</div><!-- video-end -->").data

/-- One pass of the global replace
`html.replace(/<div id="featured-video-container"[\s\S]*?<!-- video-end -->/g, '')`:
each match runs from a start marker to the first end marker after it. -/
def stripVideoBlocksAux : Nat → Str → Str
  | 0, s => s
  | fuel + 1, s =>
    match indexOf videoStartMarker s with
    | none => s
    | some i =>
      let rest := s.drop (i + videoStartMarker.length)
      match indexOf videoEndMarker rest with
      | none => s
      | some j => s.take i ++ stripVideoBlocksAux fuel (rest.drop (j + videoEndMarker.length))

def stripVideoBlocks (s : Str) : Str := stripVideoBlocksAux s.length s

/-- Shallow embedding of `injectVideoIntoHtml`. -/
def injectVideoIntoHtml (html : Str) (videoData : Option VideoData) : Str :=
  match videoData with
  | none => html
  | some v =>
    if v.embedHtml = [] then html
    else
      let videoSection := buildVideoSection v
      let cleanHtml := stripVideoBlocks html
      match indexOf (("</p>").data) cleanHtml with
      | some i => cleanHtml.take (i + 4) ++ ('\n' :: videoSection) ++ cleanHtml.drop (i + 4)
      | none =>
        match indexOf (("</h1>").data) cleanHtml with
        | some j =>
          cleanHtml.take (j + 5) ++ ('\n' :: videoSection) ++ cleanHtml.drop (j + 5)
        | none => videoSection ++ ('\n' :: cleanHtml)

/-! ## The pipeline orchestrator `handleGenerate` (claim C1) -/

namespace Wizard

structure StructureR where
  title : Str
  subtitle : Str
  lead : Str
deriving DecidableEq, Repr

structure MediaR where
  videoData : VideoData
  imageSpecs : List ImageSpec
deriving DecidableEq, Repr

/-- Outcomes of the five sequential stage calls of `handleGenerate`;
each models the settled promise of the corresponding service call. -/
structure StageEnv where
  serp : Except JsError SerpResult
  structureRes : Except JsError StructureR
  content : Except JsError Str
  media : Except JsError MediaR
  metadata : Except JsError SeoData
deriving Repr

/-- JavaScript truthiness of a parsed JSON value. -/
def jsTruthy : Json → Bool
  | Json.null => false
  | Json.undef => false
  | Json.bool b => b
  | Json.str s => s ≠ []
  | Json.num raw => !(raw == ("0").data || raw == ("-0").data)
  | Json.arr _ => true
  | Json.obj _ => true

/-- Field lookup on a parsed JSON object (`JSON.parse` keeps the last
duplicate key, hence the reversed search). -/
def jsonField (name : Str) : Json → Option Json
  | Json.obj fields => ((fields.reverse).find? (fun f => f.1 == name)).map (fun f => f.2)
  | _ => none

/-- Model of `String.prototype.substring` (clamps and swaps its indices). -/
def jsSubstring (a b : Nat) (s : Str) : Str :=
  let lo := min (min a b) s.length
  let hi := min (max a b) s.length
  (s.drop lo).take (hi - lo)

def quotaFriendlyMsg : Str :=
  ("Limite de cota excedido (Erro 429). O sistema tentou recuperar mas a demanda está alta. Por favor, aguarde alguns instantes ou verifique sua API Key.").data

/-- The catch-block error translation of `handleGenerate`
(`ArticleWizard.tsx` 217–240): try to pull `error.message` out of an
embedded JSON payload, then substitute the friendly quota message. -/
def translateError (e : JsError) : Str :=
  let m0 :=
    match e.message with
    | some m => if m = [] then ("Erro desconhecido").data else m
    | none => ("Erro desconhecido").data
  let m1 :=
    match indexOfChar '\x7b' m0, lastIndexOfChar '\x7d' m0 with
    | some a, some b =>
      let jsonStr := jsSubstring a (b + 1) m0
      match jsonParse jsonStr with
      | some obj =>
        match jsonField (("error").data) obj with
        | some errVal =>
          if jsTruthy errVal then
            match jsonField (("message").data) errVal with
            | some (Json.str s) => if s ≠ [] then s else m0
            | _ => m0
          else m0
        | none => m0
      | none => m0
    | _, _ => m0
  if hasSub (("429").data) m1 || hasSub (("quota").data) m1
      || hasSub (("RESOURCE_EXHAUSTED").data) m1 then quotaFriendlyMsg
  else m1

/-- The wizard's inline video block (`ArticleWizard.tsx` 166–173) — note it
differs from the service's `injectVideoIntoHtml` template. -/
def wizardVideoSection (v : VideoData) : Str :=
  ("<div class=\"video-container my-8\">\n<h3 class=\"text-lg font-bold mb-2 flex items-center gap-2\">Assista: ").data
    ++ v.title
    ++ ("</h3>\n<div class=\"aspect-w-16 aspect-h-9 bg-slate-100 rounded-xl overflow-hidden shadow-sm\">\n").data
    ++ v.embedHtml
    ++ ("\n</div>\n").data
    ++ (if v.caption ≠ [] then
          ("<p class=\"text-sm text-slate-500 mt-2 italic\">").data ++ v.caption
            ++ ("</p>").data
        else [])
    ++ ("\n</div>").data

/-- Result of one `handleGenerate` run: articles persisted via
`saveArticle`, the surfaced error, and the wizard step shown afterwards. -/
structure WizardOutcome where
  saved : List ArticleData
  errorMsg : Option Str
  currentStep : Nat
deriving DecidableEq, Repr

/-- Shallow embedding of `handleGenerate` (`ArticleWizard.tsx` 120–247).
The five stage calls are resolved through `env`; `nowIso` is the
`new Date().toISOString()` reading used for `createdAt`. -/
def handleGenerate (article : ArticleData) (authors : List Author) (env : StageEnv)
    (nowIso : Str) : WizardOutcome :=
  if article.topic = [] ∨ article.targetKeyword = [] then
    { saved := []
      errorMsg := some (("Por favor, preencha o tópico e a palavra-chave.").data)
      currentStep := 1 }
  else
    let currentAuthor :=
      match article.authorId with
      | some aid => authors.find? (fun a => a.id == aid)
      | none => none
    let onError := fun (e : JsError) =>
      ({ saved := [], errorMsg := some (translateError e), currentStep := 1 } : WizardOutcome)
    match env.serp with
    | Except.error e => onError e
    | Except.ok serpData =>
      match env.structureRes with
      | Except.error e => onError e
      | Except.ok structureData =>
        match env.content with
        | Except.error e => onError e
        | Except.ok htmlBody =>
          match env.media with
          | Except.error e => onError e
          | Except.ok mediaData =>
            match env.metadata with
            | Except.error e => onError e
            | Except.ok seoData =>
              let fullHtml0 := htmlBody
              let fullHtml1 :=
                if mediaData.videoData.embedHtml ≠ [] then
                  let videoSection := wizardVideoSection mediaData.videoData
                  match indexOf (("</p>").data) fullHtml0 with
                  | some i =>
                    fullHtml0.take (i + 4) ++ ('\n' :: videoSection) ++ fullHtml0.drop (i + 4)
                  | none =>
                    replaceFirst (("<article>").data)
                      ((("<article>\n").data) ++ videoSection) fullHtml0
                else fullHtml0
              let fullHtml := trimWS fullHtml1
              let tempArticle :=
                { article with
                  title := some structureData.title
                  htmlContent := some fullHtml
                  seoData := some seoData
                  videoData := some mediaData.videoData
                  imageSpecs := some mediaData.imageSpecs }
              let techSeo := generateTechnicalSeo tempArticle currentAuthor nowIso
              let completedArticle :=
                { tempArticle with
                  subtitle := some structureData.subtitle
                  metaDescription := some seoData.metaDescription
                  metaKeywords := some seoData.tags
                  serpAnalysis := some serpData
                  schemaJsonLd := some techSeo.1
                  wordpressPostJson := some techSeo.2
                  status := ArtStatus.completed
                  seoScore := some 95
                  eeatScore := some 88
                  createdAt :=
                    some (match article.createdAt with
                      | some c => if c = [] then nowIso else c
                      | none => nowIso) }
              { saved := [completedArticle], errorMsg := none, currentStep := 3 }

end Wizard

/-! ## WordPress publishing (claim C10, `part_000`) -/

namespace P0

structure WordPressConfig where
  endpoint : Str
  username : Str
  applicationPassword : Str
deriving DecidableEq, Repr

/-- Outcome of the media-upload POST. -/
inductive MediaResp where
  | ok (id : Nat)
  | notOk (body : Str)
  | exn (msg : Str)
deriving DecidableEq, Repr

/-- Outcome of the post-creation POST. -/
inductive PostResp where
  | ok (id : Nat) (link : Str)
  | notOk (status : Nat) (errMessage : Option Str)
  | exn (msg : Str)
deriving DecidableEq, Repr

/-- Collaborator outcomes of one `publishToWordPress` run. -/
structure PublishEnv where
  blobConv : Except Str Unit
  mediaResp : MediaResp
  altResp : Except Str Unit
  postResp : PostResp
deriving Repr

/-- The JSON body POSTed to `wp/v2/posts` (`part_000` lines 85–95). -/
structure PostPayload where
  title : Str
  content : Option Str
  status : Str
  slug : Str
  excerpt : Option Str
  featured_media : Option Nat
  comment_status : Str
  ping_status : Str
deriving DecidableEq, Repr

def corsMsg : Str :=
  ("Erro de Conexão: Verifique se a URL do site está correta e se o site permite conexões externas (CORS).").data

def permissionMsg : Str :=
  ("Erro de Permissão: Verifique seu usuário e Senha de Aplicativo.").data

/-- The outer catch of `publishToWordPress` (lines 121–128). -/
def outerWrap (m : Str) : Str :=
  if hasSub (("Failed to fetch").data) m then corsMsg else m

/-- The hero image selected for upload (`part_000` line 41). -/
def heroImageOf (article : ArticleData) : Option ImageSpec :=
  (article.imageSpecs.getD []).find?
    (fun s => s.role == ("hero").data && s.url != ([] : Str)
      && startsWith (("data:").data) s.url)

/-- The featured-media id after the guarded upload block (`part_000`
lines 38–82): any conversion or upload failure is swallowed and leaves the
id at 0. -/
def featuredMediaIdOf (article : ArticleData) (env : PublishEnv) : Nat :=
  match heroImageOf article with
  | none => 0
  | some _ =>
    match env.blobConv with
    | Except.error _ => 0
    | Except.ok _ =>
      match env.mediaResp with
      | MediaResp.ok mid => mid
      | MediaResp.notOk _ => 0
      | MediaResp.exn _ => 0

/-- The JSON body POSTed to `wp/v2/posts` (`part_000` lines 85–95). -/
def postPayloadOf (article : ArticleData) (env : PublishEnv) : PostPayload :=
  { title :=
      match article.title with
      | some t => if t = [] then article.topic else t
      | none => article.topic
    content := article.htmlContent
    status := ("draft").data
    slug :=
      match article.seoData with
      | some sd =>
        if sd.slug ≠ [] then sd.slug
        else (article.targetKeyword.map (fun c => if c = ' ' then '-' else c)).map
          Char.toLower
      | none =>
        (article.targetKeyword.map (fun c => if c = ' ' then '-' else c)).map Char.toLower
    excerpt := article.metaDescription
    featured_media :=
      if featuredMediaIdOf article env > 0 then some (featuredMediaIdOf article env) else none
    comment_status := ("open").data
    ping_status := ("open").data }

/-- Does the run count as a hero-upload failure (conversion exception,
upload exception, or non-OK upload response)? -/
def heroUploadFailed (env : PublishEnv) : Bool :=
  (match env.blobConv with
   | Except.error _ => true
   | Except.ok _ => false)
  || (match env.mediaResp with
      | MediaResp.notOk _ => true
      | MediaResp.exn _ => true
      | MediaResp.ok _ => false)

/-- Shallow embedding of `publishToWordPress` (`part_000` 15–129).
Returns the published `(id, link)` or the surfaced error, together with the
post payload actually sent (if the run reached post creation). -/
def publishToWordPress (article : ArticleData) (config : WordPressConfig)
    (env : PublishEnv) : Except Str (Nat × Str) × Option PostPayload :=
  if config.endpoint = [] ∨ config.username = [] ∨ config.applicationPassword = [] then
    (Except.error (("Configuração do WordPress incompleta. Vá em Configurações > WordPress.").data),
      none)
  else
    match env.postResp with
    | PostResp.ok pid link => (Except.ok (pid, link), some (postPayloadOf article env))
    | PostResp.notOk status errMsg =>
      let m :=
        if status = 401 ∨ status = 403 then permissionMsg
        else
          match errMsg with
          | some em =>
            if em ≠ [] then em else ("Erro HTTP: ").data ++ (toString status).data
          | none => ("Erro HTTP: ").data ++ (toString status).data
      (Except.error (outerWrap m), some (postPayloadOf article env))
    | PostResp.exn m => (Except.error (outerWrap m), some (postPayloadOf article env))

end P0

/-- A concrete environment for exercising the fallback path: the first
three calls fail with a quota error, later calls succeed. -/
def fallbackEnvEx : Nat → Res Response := fun k =>
  if k < 3 then Except.error ⟨some 429, none, none⟩
  else Except.ok ⟨some (("hi").data)⟩

/-- A concrete article for exercising `generateTechnicalSeo`. -/
def articleEx : ArticleData :=
  { id := ("a1").data
    topic := ("Solar").data
    targetKeyword := ("solar").data
    language := ("Português").data
    wordCount := ("1500").data
    siteUrl := some (("https://mysite.com").data)
    authorId := none
    title := some (("T").data)
    subtitle := none
    htmlContent := some (("<article></article>").data)
    metaDescription := none
    metaKeywords := none
    seoData := some
      { seoTitle := ("Solar title").data
        metaDescription := ("About solar").data
        slug := ("solar-slug").data
        targetKeyword := ("solar").data
        synonyms := []
        relatedKeyphrase := []
        tags := []
        lsiKeywords := []
        opportunities := ⟨[], [], []⟩ }
    schemaJsonLd := none
    wordpressPostJson := none
    videoData := none
    imageSpecs := some []
    serpAnalysis := none
    seoScore := none
    eeatScore := none
    status := ArtStatus.draft
    createdAt := none }

/-- A concrete parsed payload carrying a standard watch URL. -/
def parsedVideoEx : ParsedVideo :=
  ⟨("t").data, [], ("https://www.youtube.com/watch?v=dQw4w9WgXcQ").data, [], []⟩

/-- A concrete article carrying a base64 hero image. -/
def articleWithHeroEx : ArticleData :=
  { articleEx with
    imageSpecs := some
      [{ role := ("hero").data
         aspectRatio := ("16:9").data
         prompt := ("p").data
         alt := ("alt").data
         title := ("t").data
         caption := ("c").data
         filename := ("f.jpg").data
         url := ("data:image/jpeg;base64,AAAA").data }] }

/-- A publish run where the media upload returns a non-OK response but the
post creation succeeds. -/
def publishEnvMediaFailEx : P0.PublishEnv :=
  { blobConv := Except.ok ()
    mediaResp := P0.MediaResp.notOk (("500 oops").data)
    altResp := Except.ok ()
    postResp := P0.PostResp.ok 7 (("https://s.com/?p=7").data) }

/-- Concrete stage results for exercising `handleGenerate`. -/
def serpResultEx : SerpResult := ⟨[], [], ("s").data, [], []⟩

def structureResultEx : Wizard.StructureR :=
  ⟨("Title").data, ("Sub").data, ("Lead").data⟩

def wizardArticleEx : ArticleData :=
  { articleEx with topic := ("Solar").data, targetKeyword := ("solar").data }

/-- A stage environment whose body stage rejects with a quota error. -/
def stageEnvBodyFailEx : Wizard.StageEnv :=
  { serp := Except.ok serpResultEx
    structureRes := Except.ok structureResultEx
    content := Except.error ⟨some 429, none, some (("quota exceeded").data)⟩
    media := Except.ok ⟨⟨("q").data, [], [], [], [], [], [], []⟩, []⟩
    metadata := Except.error ⟨none, none, none⟩ }

/-- Segments of the video block template between the interpolation points,
named for the injection proofs (claim C2). -/
def vsSeg1 : Str :=
  (" class=\"video-container my-8\">\n  <h3 class=\"text-lg font-bold mb-2 flex items-center gap-2\">\n    <svg xmlns=\"http://www.w3.org/2000/svg\" width=\"24\" height=\"24\" viewBox=\"0 0 24 24\" fill=\"none\" stroke=\"currentColor\" stroke-width=\"2\" stroke-linecap=\"round\" stroke-linejoin=\"round\" class=\"text-red-600\"><rect width=\"20\" height=\"15\" x=\"2\" y=\"7\" rx=\"2\" ry=\"2\"/><polyline points=\"17 12 12 7 12 17\"/></svg>\n    Assista: ").data

def vsSeg2 : Str :=
  ("\n  </h3>\n  <div class=\"aspect-video bg-slate-100 rounded-xl overflow-hidden shadow-sm\">\n    ").data

def vsSeg3 : Str := ("\n  </div>\n  ").data

def vsCapPre : Str := ("<p class=\"text-sm text-slate-500 mt-2 italic\">").data

def vsCapPost : Str := ("</p>").data

def vsPreEnd : Str := ("\n</div>").data

/-- The caption block of the template. -/
def vsCapBlock (caption : Str) : Str :=
  if caption ≠ [] then vsCapPre ++ caption ++ vsCapPost else []

/-- A concrete video asset with nonempty embed markup for the injection claims. -/
def vW : VideoData :=
  ⟨[], ("T").data, [], [], ("<em>E</em>").data, [], ("c").data, []⟩

/-! ## Lemmas about the string toolkit and the retry primitive -/

theorem indexOf_cons (pat : Str) (c : Char) (rest : Str) :
    indexOf pat (c :: rest)
      = if pat.isPrefixOf (c :: rest) then some 0 else (indexOf pat rest).map (· + 1) := rfl

section CountLemmas

theorem isPrefixOf_iff {l₁ l₂ : Str} : l₁.isPrefixOf l₂ = true ↔ l₁ <+: l₂ :=
  List.isPrefixOf_iff_prefix

theorem prefix_length_le {l₁ l₂ : Str} (h : l₁.isPrefixOf l₂ = true) :
    l₁.length ≤ l₂.length :=
  (isPrefixOf_iff.mp h).length_le

/-- A pattern occurrence that fits inside the left half of an append is
unaffected by the right half. -/
theorem isPrefixOf_append_of_length_le {pat t y : Str} (h : pat.length ≤ t.length) :
    pat.isPrefixOf (t ++ y) = pat.isPrefixOf t := by
  rcases hb : pat.isPrefixOf t with _ | _
  · rcases hc : pat.isPrefixOf (t ++ y) with _ | _
    · rfl
    · exfalso
      have hpre := isPrefixOf_iff.mp hc
      have : pat = (t ++ y).take pat.length := by
        simpa using (List.prefix_iff_eq_take.mp hpre)
      rw [List.take_append_of_le_length h] at this
      have : pat <+: t := by
        rw [this]; exact ⟨t.drop pat.length, by simp⟩
      rw [← isPrefixOf_iff] at this
      simp [hb] at this
  · have hpre := isPrefixOf_iff.mp hb
    have : pat <+: t ++ y := hpre.trans ⟨y, rfl⟩
    rw [← isPrefixOf_iff] at this
    simp [this]

/-- Splitting lemma for occurrence counts: if no occurrence straddles the
boundary of `x ++ y`, counts add. -/
theorem countOccs_append (pat x y : Str)
    (h : ∀ i, i < x.length → x.length < i + pat.length →
      ¬ pat.isPrefixOf ((x ++ y).drop i) = true) :
    countOccs pat (x ++ y) = countOccs pat x + countOccs pat y := by
  induction x with
  | nil => simp [countOccs]
  | cons c x' ih =>
    have hx : (c :: x') ++ y = c :: (x' ++ y) := rfl
    rw [hx]
    show (if pat.isPrefixOf (c :: (x' ++ y)) then 1 else 0) + countOccs pat (x' ++ y)
      = ((if pat.isPrefixOf (c :: x') then 1 else 0) + countOccs pat x') + countOccs pat y
    have hrec : countOccs pat (x' ++ y) = countOccs pat x' + countOccs pat y := by
      apply ih
      intro i hi hlen hpre
      exact h (i + 1) (by simpa using Nat.succ_lt_succ hi)
        (by simpa [Nat.succ_lt_succ_iff, Nat.add_right_comm] using Nat.succ_lt_succ hlen)
        (by simpa using hpre)
    rw [hrec]
    by_cases hlen : pat.length ≤ (c :: x').length
    · have : pat.isPrefixOf ((c :: x') ++ y) = pat.isPrefixOf (c :: x') :=
        isPrefixOf_append_of_length_le hlen
      rw [hx] at this
      rw [this]
      ring
    · push_neg at hlen
      have h0 := h 0 (by simp) (by simpa using hlen)
      simp only [List.drop_zero] at h0
      rw [hx] at h0
      have h1 : ¬ pat.isPrefixOf (c :: x') = true := by
        intro hc
        exact absurd (prefix_length_le hc) (Nat.not_le.mpr hlen)
      simp only [eq_false_of_ne_true h0, eq_false_of_ne_true h1]
      ring

theorem getElem_of_isPrefixOf {pat s : Str} (h : pat.isPrefixOf s = true)
    {i : Nat} (hi : i < pat.length) :
    s[i]? = some pat[i] := by
  obtain ⟨t, rfl⟩ := isPrefixOf_iff.mp h
  rw [List.getElem?_append_left hi, List.getElem?_eq_getElem hi]

/-- If the first character of the right half does not occur in `pat.drop 1`,
no occurrence straddles the boundary. -/
theorem countOccs_append_right_char (pat x : Str) (d : Char) (y : Str)
    (hd : d ∉ pat.drop 1) :
    countOccs pat (x ++ d :: y) = countOccs pat x + countOccs pat (d :: y) := by
  apply countOccs_append
  intro i hi hlen hpre
  apply hd
  have hidx : x.length - i < pat.length := by omega
  have hval : ((x ++ d :: y).drop i)[x.length - i]? = some pat[x.length - i] :=
    getElem_of_isPrefixOf hpre hidx
  have hval2 : ((x ++ d :: y).drop i)[x.length - i]? = some d := by
    rw [List.getElem?_drop]
    have heq : i + (x.length - i) = x.length := by omega
    rw [heq, List.getElem?_append_right (le_refl _)]
    simp
  rw [hval2] at hval
  have hd' : pat[x.length - i] = d := by
    injection hval with hv; exact hv.symm
  have hmem : pat[x.length - i] ∈ pat.drop 1 := by
    have h1 : 1 ≤ x.length - i := by omega
    have h2 : (x.length - i - 1) < (pat.drop 1).length := by
      simp only [List.length_drop]; omega
    have h3 : (pat.drop 1)[x.length - i - 1] = pat[x.length - i] := by
      rw [List.getElem_drop]
      congr 1
      omega
    rw [← h3]
    exact List.getElem_mem h2
  rwa [hd'] at hmem

/-- If the last character of the left half does not occur in `pat.dropLast`,
no occurrence straddles the boundary. -/
theorem countOccs_append_left_char (pat x : Str) (c : Char) (y : Str)
    (hc : c ∉ pat.dropLast) :
    countOccs pat ((x ++ [c]) ++ y) = countOccs pat (x ++ [c]) + countOccs pat y := by
  apply countOccs_append
  intro i hi hlen hpre
  apply hc
  have hxlen : (x ++ [c]).length = x.length + 1 := by simp
  have hidx : x.length - i < pat.length := by omega
  have hval : (((x ++ [c]) ++ y).drop i)[x.length - i]? = some pat[x.length - i] :=
    getElem_of_isPrefixOf hpre hidx
  have hval2 : (((x ++ [c]) ++ y).drop i)[x.length - i]? = some c := by
    rw [List.getElem?_drop]
    have heq : i + (x.length - i) = x.length := by omega
    rw [heq]
    have hlt : x.length < (x ++ [c]).length := by simp
    rw [List.getElem?_append_left hlt, List.getElem?_append_right (le_refl _)]
    simp
  rw [hval2] at hval
  have hc' : pat[x.length - i] = c := by
    injection hval with hv; exact hv.symm
  have h2 : (x.length - i) < pat.dropLast.length := by
    rw [List.length_dropLast]; omega
  have h3 : pat.dropLast[x.length - i] = pat[x.length - i] := List.getElem_dropLast _ _ h2
  rw [← hc', ← h3]
  exact List.getElem_mem h2

theorem countOccs_cons_of_isPrefixOf {pat : Str} {c : Char} {rest : Str}
    (h : pat.isPrefixOf (c :: rest) = true) :
    countOccs pat (c :: rest) = 1 + countOccs pat rest := by
  simp [countOccs, h]

/-- For a nonempty pattern, a zero occurrence count means the pattern is a
prefix of no suffix. -/
theorem countOccs_eq_zero_iff {pat : Str} (hpat : pat ≠ []) (s : Str) :
    countOccs pat s = 0 ↔ ∀ i, pat.isPrefixOf (s.drop i) = false := by
  induction s with
  | nil =>
    simp only [countOccs, List.drop_nil]
    constructor
    · intro _ i
      cases hp : pat.isPrefixOf ([] : Str)
      · rfl
      · exact absurd (List.eq_nil_of_length_eq_zero
          (Nat.le_zero.mp (prefix_length_le hp))) hpat
    · intro _; trivial
  | cons c rest ih =>
    constructor
    · intro h i
      have hsum : (if pat.isPrefixOf (c :: rest) then 1 else 0) + countOccs pat rest = 0 := h
      have h1 : pat.isPrefixOf (c :: rest) = false := by
        by_contra hx
        simp [eq_true_of_ne_false hx] at hsum
      have h2 : countOccs pat rest = 0 := by
        rcases hp : pat.isPrefixOf (c :: rest) with _ | _
        · simpa [hp] using hsum
        · simp [hp] at h1
      match i with
      | 0 => simpa using h1
      | Nat.succ j => simpa using (ih.mp h2) j
    · intro h
      have h0 := h 0
      simp only [List.drop_zero] at h0
      have hrest : ∀ i, pat.isPrefixOf (rest.drop i) = false := fun i => by
        simpa using h (i + 1)
      show (if pat.isPrefixOf (c :: rest) then 1 else 0) + countOccs pat rest = 0
      simp [h0, ih.mpr hrest]

theorem indexOf_eq_none_of_countOccs_zero {pat : Str} (hpat : pat ≠ []) {s : Str}
    (h : countOccs pat s = 0) : indexOf pat s = none := by
  induction s with
  | nil => simp [indexOf, hpat]
  | cons c rest ih =>
    have hall := (countOccs_eq_zero_iff hpat _).mp h
    have h0 : pat.isPrefixOf (c :: rest) = false := by simpa using hall 0
    have hrest : countOccs pat rest = 0 := (countOccs_eq_zero_iff hpat _).mpr
      (fun i => by simpa using hall (i + 1))
    simp [indexOf, h0, ih hrest]

/-- Locating the first occurrence after a clean left part: if the pattern's
head character never recurs inside the pattern, occurrences cannot straddle,
so the first occurrence in `x ++ y` with `x` clean and `pat` starting `y`
sits exactly at `x.length`. -/
theorem indexOf_append_of_clean {p : Char} {pt : Str} (hp : p ∉ pt) {x y : Str}
    (hx : countOccs (p :: pt) x = 0) (hy : (p :: pt).isPrefixOf y = true) :
    indexOf (p :: pt) (x ++ y) = some x.length := by
  induction x with
  | nil =>
    cases y with
    | nil => exact absurd (prefix_length_le hy) (by simp)
    | cons d rest => simp [indexOf, hy]
  | cons c x' ih =>
    have hall := (countOccs_eq_zero_iff (by simp) _).mp hx
    have hx' : countOccs (p :: pt) x' = 0 := (countOccs_eq_zero_iff (by simp) _).mpr
      (fun i => by simpa using hall (i + 1))
    have hnot : (p :: pt).isPrefixOf ((c :: x') ++ y) = false := by
      by_contra hcon
      have hpre : (p :: pt).isPrefixOf (c :: x' ++ y) = true := eq_true_of_ne_false hcon
      by_cases hl : (p :: pt).length ≤ (c :: x').length
      · have := isPrefixOf_append_of_length_le (y := y) hl
        have hin : (p :: pt).isPrefixOf (c :: x') = true := by
          rw [← this]; exact hpre
        have := hall 0
        simp [hin] at this
      · push_neg at hl
        obtain ⟨yt, hyt⟩ := isPrefixOf_iff.mp hy
        have hyne : y = p :: (pt ++ yt) := by rw [← hyt]; rfl
        have hidx : (c :: x').length < (p :: pt).length := hl
        have hgetp : ((c :: x') ++ y)[(c :: x').length]? = some ((p :: pt)[(c :: x').length]) :=
          getElem_of_isPrefixOf (by simpa using hpre) hidx
        have hgety : ((c :: x') ++ y)[(c :: x').length]? = some p := by
          rw [List.getElem?_append_right (le_refl _)]
          simp [hyne]
        rw [hgety] at hgetp
        have hpp : (p :: pt)[(c :: x').length] = p := by
          injection hgetp with hv; exact hv.symm
        have h2 : x'.length < pt.length := by
          simp only [List.length_cons] at hidx; omega
        simp only [List.length_cons] at hpp
        rw [List.getElem_cons_succ] at hpp
        rw [← hpp] at hp
        exact hp (List.getElem_mem h2)
    show indexOf (p :: pt) (c :: (x' ++ y)) = some (x'.length + 1)
    rw [indexOf_cons]
    have hnot' : (p :: pt).isPrefixOf (c :: (x' ++ y)) = false := by simpa using hnot
    rw [hnot']
    simp [ih hx']

/-- An occurrence of a super-pattern contains an occurrence of the pattern,
so pattern-freeness transfers upward. -/
theorem countOccs_extend_zero {pat : Str} (hpat : pat ≠ []) {s : Str}
    (h : countOccs pat s = 0) (u : Str) : countOccs (u ++ pat) s = 0 := by
  have hne : u ++ pat ≠ [] := by
    intro hc
    exact hpat (List.append_eq_nil.mp hc).2
  rw [countOccs_eq_zero_iff hne]
  intro i
  by_contra hcon
  have hpre := isPrefixOf_iff.mp (eq_true_of_ne_false hcon)
  obtain ⟨t, ht⟩ := hpre
  have hdrop : s.drop (i + u.length) = pat ++ t := by
    have : s.drop (i + u.length) = (s.drop i).drop u.length := by
      rw [List.drop_drop, Nat.add_comm]
    rw [this, ← ht]
    simp
  have hok : pat.isPrefixOf (s.drop (i + u.length)) = true := by
    rw [hdrop, isPrefixOf_iff]
    exact ⟨t, rfl⟩
  have hbad := (countOccs_eq_zero_iff hpat _).mp h (i + u.length)
  rw [hok] at hbad
  simp at hbad

end CountLemmas

section MoreCountLemmas

/-- Splitting lemma with a concrete left part: if no nonempty proper suffix
of `x` is a prefix of `pat`, occurrences cannot straddle the boundary. -/
theorem countOccs_append_concrete (pat x y : Str)
    (hb : ∀ i, i < x.length → x.length < i + pat.length →
      ((x.drop i).isPrefixOf pat) = false) :
    countOccs pat (x ++ y) = countOccs pat x + countOccs pat y := by
  apply countOccs_append
  intro i hi hlen hpre
  have hdrop : (x ++ y).drop i = x.drop i ++ y := List.drop_append_of_le_length (le_of_lt hi)
  rw [hdrop] at hpre
  obtain ⟨t, ht⟩ := isPrefixOf_iff.mp hpre
  have hxlen : (x.drop i).length = x.length - i := by simp
  have hlt : (x.drop i).length < pat.length := by omega
  have hx : x.drop i = pat.take (x.drop i).length := by
    have h1 : x.drop i = (x.drop i ++ y).take (x.drop i).length := by
      rw [List.take_left]
    rw [← ht] at h1
    rw [List.take_append_of_le_length (le_of_lt hlt)] at h1
    exact h1
  have hpre2 : (x.drop i).isPrefixOf pat = true := by
    rw [isPrefixOf_iff, hx]
    exact List.take_prefix _ _
  rw [hb i hi hlen] at hpre2
  cases hpre2

theorem stripVideoBlocksAux_of_none {s : Str} (f : Nat)
    (h : indexOf videoStartMarker s = none) : stripVideoBlocksAux f s = s := by
  cases f with
  | zero => rfl
  | succ g => simp [stripVideoBlocksAux, h]

theorem stripVideoBlocksAux_step (f : Nat) (s : Str) (i j : Nat)
    (hi : indexOf videoStartMarker s = some i)
    (hj : indexOf videoEndMarker (s.drop (i + videoStartMarker.length)) = some j) :
    stripVideoBlocksAux (f + 1) s
      = s.take i
        ++ stripVideoBlocksAux f
          ((s.drop (i + videoStartMarker.length)).drop (j + videoEndMarker.length)) := by
  simp [stripVideoBlocksAux, hi, hj]


theorem countOccs_append_right_head (pat x y : Str) (hne : y ≠ [])
    (hd : ∀ d, y.head? = some d → d ∉ pat.drop 1) :
    countOccs pat (x ++ y) = countOccs pat x + countOccs pat y := by
  cases y with
  | nil => cases hne rfl
  | cons d yt => exact countOccs_append_right_char pat x d yt (hd d rfl)

/-- Is the pattern nonempty with a head character that does not recur? -/
def patHeadFresh : Str → Bool
  | [] => false
  | p :: pt => decide (p ∉ pt)

theorem indexOf_append_locate (pat x y : Str) (hf : patHeadFresh pat = true)
    (hx : countOccs pat x = 0) (hy : pat.isPrefixOf y = true) :
    indexOf pat (x ++ y) = some x.length := by
  cases pat with
  | nil => cases hf
  | cons p pt =>
    apply indexOf_append_of_clean
    · exact of_decide_eq_true hf
    · exact hx
    · exact hy

set_option maxRecDepth 100000 in
/-- The video block decomposed around its wrapper markers. -/
theorem buildVideoSection_decomp (v : VideoData) :
    buildVideoSection v
      = '\n' :: (videoStartMarker ++ vsSeg1 ++ v.title ++ vsSeg2 ++ v.embedHtml ++ vsSeg3
          ++ vsCapBlock v.caption ++ vsPreEnd ++ videoEndMarker) := by
  have h1 : ("\n<div id=\"featured-video-container\" class=\"video-container my-8\">\n  <h3 class=\"text-lg font-bold mb-2 flex items-center gap-2\">\n    <svg xmlns=\"http://www.w3.org/2000/svg\" width=\"24\" height=\"24\" viewBox=\"0 0 24 24\" fill=\"none\" stroke=\"currentColor\" stroke-width=\"2\" stroke-linecap=\"round\" stroke-linejoin=\"round\" class=\"text-red-600\"><rect width=\"20\" height=\"15\" x=\"2\" y=\"7\" rx=\"2\" ry=\"2\"/><polyline points=\"17 12 12 7 12 17\"/></svg>\n    Assista: ").data
      = '\n' :: (videoStartMarker ++ vsSeg1) := by decide
  have h4 : ("\n</div><!-- video-end -->").data = vsPreEnd ++ videoEndMarker := by decide
  simp only [buildVideoSection, vsCapBlock, vsSeg2, vsSeg3, vsCapPre, vsCapPost, h1, h4]
  simp [videoStartMarker, vsSeg1, vsPreEnd, videoEndMarker, List.append_assoc]


theorem countOccs_cons_ne {pat : Str} {c : Char} {rest : Str}
    (h : pat.isPrefixOf (c :: rest) = false) :
    countOccs pat (c :: rest) = countOccs pat rest := by
  simp [countOccs, h]

theorem isPrefixOf_cons_false {p c : Char} {pt rest : Str} (h : p ≠ c) :
    (p :: pt).isPrefixOf (c :: rest) = false := by
  simp [List.isPrefixOf, beq_iff_eq, h]

theorem countOccs_cons_head_ne {p c : Char} {pt rest : Str} (h : p ≠ c) :
    countOccs (p :: pt) (c :: rest) = countOccs (p :: pt) rest :=
  countOccs_cons_ne (isPrefixOf_cons_false h)

end MoreCountLemmas


namespace GS

theorem retryWithBackoff_of_ok {α : Type} {op : Nat → Res α} {k : Nat} {a : α}
    (hop : op k = Except.ok a) (retries delay factor : Nat) :
    retryWithBackoff op k retries delay factor = (Except.ok a, k + 1, []) := by
  cases retries with
  | zero => simp only [retryWithBackoff, hop]
  | succ rem => simp only [retryWithBackoff, hop]

theorem retryWithBackoff_of_retry {α : Type} {op : Nat → Res α} {k : Nat} {e : JsError}
    (hop : op k = Except.error e) (hre : isRetryable e = true)
    {retries : Nat} (hr : 0 < retries) (delay factor : Nat) :
    retryWithBackoff op k retries delay factor =
      (let r := retryWithBackoff op (k + 1) (retries - 1) (delay * factor) factor
       (r.1, r.2.1, delay :: r.2.2)) := by
  cases retries with
  | zero => exact absurd hr (by omega)
  | succ rem =>
    simp only [retryWithBackoff, hop, hre, if_true, Nat.add_sub_cancel]

theorem retryWithBackoff_of_stop {α : Type} {op : Nat → Res α} {k : Nat} {e : JsError}
    (hop : op k = Except.error e) {retries : Nat}
    (hstop : isRetryable e = false ∨ retries = 0) (delay factor : Nat) :
    retryWithBackoff op k retries delay factor = (Except.error e, k + 1, []) := by
  cases retries with
  | zero => simp only [retryWithBackoff, hop]
  | succ rem =>
    rcases hstop with h | h
    · simp [retryWithBackoff, hop, h]
    · exact absurd h (Nat.succ_ne_zero rem)

end GS

namespace P6

theorem retryWithBackoffP6_of_ok {α : Type} {op : Nat → Res α} {k : Nat} {a : α}
    (hop : op k = Except.ok a) (retries delay factor : Nat) (isImg flag : Bool) :
    retryWithBackoff op k retries delay factor isImg flag = (Except.ok a, flag, k + 1, []) := by
  cases retries with
  | zero => simp only [retryWithBackoff, hop]
  | succ rem => simp only [retryWithBackoff, hop]

theorem retryWithBackoff_quota_image {α : Type} {op : Nat → Res α} {k : Nat} {e : JsError}
    (hop : op k = Except.error e) (hq : isQuotaError e = true)
    (retries delay factor : Nat) (flag : Bool) :
    retryWithBackoff op k retries delay factor true flag
      = (Except.error quotaImageError, true, k + 1, []) := by
  cases retries with
  | zero => simp [retryWithBackoff, hop, hq]
  | succ rem => simp [retryWithBackoff, hop, hq]

theorem retryWithBackoffP6_of_retry {α : Type} {op : Nat → Res α} {k : Nat} {e : JsError}
    (hop : op k = Except.error e) {isImg : Bool}
    (hni : (isQuotaError e && isImg) = false)
    (hre : (isQuotaError e || isNetworkError e) = true)
    {retries : Nat} (hr : 0 < retries) (delay factor : Nat) (flag : Bool) :
    retryWithBackoff op k retries delay factor isImg flag =
      (let r := retryWithBackoff op (k + 1) (retries - 1) (delay * factor) factor isImg flag
       (r.1, r.2.1, r.2.2.1,
         (if isQuotaError e then max delay 30000 else delay) :: r.2.2.2)) := by
  cases retries with
  | zero => exact absurd hr (by omega)
  | succ rem =>
    simp only [retryWithBackoff, hop, hni, hre, Bool.false_eq_true, if_false, if_true,
      Nat.add_sub_cancel]

theorem retryWithBackoffP6_of_stop {α : Type} {op : Nat → Res α} {k : Nat} {e : JsError}
    (hop : op k = Except.error e) {isImg : Bool}
    (hni : (isQuotaError e && isImg) = false) {retries : Nat}
    (hstop : (isQuotaError e || isNetworkError e) = false ∨ retries = 0)
    (delay factor : Nat) (flag : Bool) :
    retryWithBackoff op k retries delay factor isImg flag
      = (Except.error e, flag, k + 1, []) := by
  cases retries with
  | zero => simp [retryWithBackoff, hop, hni]
  | succ rem =>
    rcases hstop with h | h
    · simp [retryWithBackoff, hop, hni, h]
    · exact absurd h (Nat.succ_ne_zero rem)

/-- The breaker flag is never cleared by `retryWithBackoff`. -/
theorem retryWithBackoff_flag_monotone {α : Type} (op : Nat → Res α)
    (k retries delay factor : Nat) (isImg : Bool) :
    (retryWithBackoff op k retries delay factor isImg true).2.1 = true := by
  induction retries generalizing k delay factor with
  | zero =>
    rcases hop : op k with e | a
    · by_cases hq : (isQuotaError e && isImg) = true
      · simp [retryWithBackoff, hop, hq]
      · simp only [Bool.not_eq_true] at hq
        simp [retryWithBackoff, hop, hq]
    · simp [retryWithBackoff, hop]
  | succ rem ih =>
    rcases hop : op k with e | a
    · by_cases hq : (isQuotaError e && isImg) = true
      · simp [retryWithBackoff, hop, hq]
      · simp only [Bool.not_eq_true] at hq
        by_cases hn : (isQuotaError e || isNetworkError e) = true
        · simp [retryWithBackoff, hop, hq, hn, ih]
        · simp only [Bool.not_eq_true] at hn
          simp [retryWithBackoff, hop, hq, hn]
    · simp [retryWithBackoff, hop]

end P6

/-- Claim C6 (counterexample).  The claim says `retryWithBackoff` re-invokes
the operation whenever the caught failure is retryable and retries remain,
and otherwise propagates the caught error unchanged.  The `part_006`
variant violates this: an image-path quota error (status 429, classified
retryable) with three retries remaining is neither retried nor propagated —
a replacement error is thrown after a single attempt. -/
theorem C6_counterexample :
    P6.retryWithBackoff (fun _ => (Except.error ⟨some 429, none, none⟩ : Res Unit))
        0 3 2000 2 true false
      = (Except.error P6.quotaImageError, true, 1, [])
    ∧ P6.quotaImageError ≠ (⟨some 429, none, none⟩ : JsError)
    ∧ P6.isQuotaError ⟨some 429, none, none⟩ = true
    ∧ (P6.retryWithBackoff (fun _ => (Except.error ⟨some 429, none, none⟩ : Res Unit))
        0 3 2000 2 false false).2.2.2 = [30000, 30000, 30000] :=
  ⟨rfl, by decide, by decide, rfl⟩

/-- Claim C6 (amended).  The `geminiService.ts` `retryWithBackoff` satisfies
the stated contract exactly: on a retryable error with retries remaining it
sleeps `delay` and re-invokes with `retries-1` and `delay*factor`; otherwise
it propagates the caught error value unchanged (and a successful operation
is returned as-is).  The `part_006` variant deviates: an image-request
quota error immediately sets the breaker and throws a replacement error,
and a quota error sleeps `max delay 30000` instead of `delay`. -/
theorem C6_theorem :
    (∀ (α : Type) (op : Nat → Res α) (k retries delay factor : Nat) (e : JsError),
      op k = Except.error e →
        (GS.isRetryable e = true → 0 < retries →
          GS.retryWithBackoff op k retries delay factor
            = (let r := GS.retryWithBackoff op (k + 1) (retries - 1) (delay * factor) factor
               (r.1, r.2.1, delay :: r.2.2)))
        ∧ (GS.isRetryable e = false ∨ retries = 0 →
            GS.retryWithBackoff op k retries delay factor = (Except.error e, k + 1, [])))
    ∧ (∀ (α : Type) (op : Nat → Res α) (k : Nat) (a : α) (retries delay factor : Nat),
        op k = Except.ok a →
          GS.retryWithBackoff op k retries delay factor = (Except.ok a, k + 1, []))
    ∧ (∀ (α : Type) (op : Nat → Res α) (k retries delay factor : Nat) (flag : Bool)
        (e : JsError),
        op k = Except.error e → P6.isQuotaError e = true →
          P6.retryWithBackoff op k retries delay factor true flag
            = (Except.error P6.quotaImageError, true, k + 1, []))
    ∧ (∀ (α : Type) (op : Nat → Res α) (k retries delay factor : Nat) (flag : Bool)
        (e : JsError),
        op k = Except.error e → P6.isQuotaError e = true → 0 < retries →
          P6.retryWithBackoff op k retries delay factor false flag
            = (let r := P6.retryWithBackoff op (k + 1) (retries - 1) (delay * factor) factor
                false flag
               (r.1, r.2.1, r.2.2.1, (max delay 30000) :: r.2.2.2))) := by
  refine ⟨?_, ?_, ?_, ?_⟩
  · intro α op k retries delay factor e hop
    constructor
    · intro hre hr
      exact GS.retryWithBackoff_of_retry hop hre hr delay factor
    · intro hstop
      exact GS.retryWithBackoff_of_stop hop hstop delay factor
  · intro α op k a retries delay factor hop
    exact GS.retryWithBackoff_of_ok hop retries delay factor
  · intro α op k retries delay factor flag e hop hq
    exact P6.retryWithBackoff_quota_image hop hq retries delay factor flag
  · intro α op k retries delay factor flag e hop hq hr
    have hni : (P6.isQuotaError e && false) = false := by simp
    have hre : (P6.isQuotaError e || P6.isNetworkError e) = true := by simp [hq]
    have h := P6.retryWithBackoffP6_of_retry hop hni hre hr delay factor flag
    rw [h]
    simp [hq]

/-- Claim C6 (witness): the amended theorem applied at concrete inputs —
the stop case and the retry case of the `geminiService.ts` variant, and the
image-quota and text-quota cases of the `part_006` variant. -/
theorem C6_witness :
    GS.retryWithBackoff (fun _ => (Except.error ⟨some 429, none, none⟩ : Res Unit)) 0 0 3000 2
      = (Except.error ⟨some 429, none, none⟩, 1, [])
    ∧ GS.retryWithBackoff (fun _ => (Except.error ⟨some 429, none, none⟩ : Res Unit)) 0 2 2000 3
      = (let r := GS.retryWithBackoff
            (fun _ => (Except.error ⟨some 429, none, none⟩ : Res Unit)) 1 1 6000 3
         (r.1, r.2.1, 2000 :: r.2.2))
    ∧ P6.retryWithBackoff (fun _ => (Except.error ⟨some 429, none, none⟩ : Res Unit))
        0 3 2000 2 true false
      = (Except.error P6.quotaImageError, true, 1, [])
    ∧ P6.retryWithBackoff (fun _ => (Except.error ⟨some 429, none, none⟩ : Res Unit))
        0 3 2000 2 false false
      = (let r := P6.retryWithBackoff
            (fun _ => (Except.error ⟨some 429, none, none⟩ : Res Unit)) 1 2 4000 2 false false
         (r.1, r.2.1, r.2.2.1, 30000 :: r.2.2.2)) := by
  refine ⟨?_, ?_, ?_, ?_⟩
  · exact (C6_theorem.1 Unit _ 0 0 3000 2 _ rfl).2 (Or.inr rfl)
  · have h := (C6_theorem.1 Unit (fun _ => (Except.error ⟨some 429, none, none⟩ : Res Unit))
      0 2 2000 3 ⟨some 429, none, none⟩ rfl).1 (by decide) (by decide)
    simpa using h
  · exact C6_theorem.2.2.1 Unit _ 0 3 2000 2 false _ rfl (by decide)
  · have h := C6_theorem.2.2.2 Unit (fun _ => (Except.error ⟨some 429, none, none⟩ : Res Unit))
      0 3 2000 2 false ⟨some 429, none, none⟩ rfl (by decide) (by decide)
    simpa using h



/-- Claim C4: the model fallback dispatcher.  In both variants, when the
preferred run settles with a recoverable error and the fallback model
differs from the preferred one, the dispatcher strips `thinkingConfig`
(`part_006` additionally strips `responseSchema`), performs exactly one
further backoff run against the fallback model whose outcome — success or
failure — becomes the dispatcher's outcome (no further tier), and in every
other case propagates the preferred run's error; attempts before the
fallback all use the preferred model and the unmodified config. -/
theorem C4_theorem :
    (∀ (env : Nat → Res Response) (model : Str) (config : GenConfig) (fb : Str),
      (GS.generateSmartContent env model config fb).2.take
          (GS.retryWithBackoff env 0 2 2000 2).2.1
        = List.replicate (GS.retryWithBackoff env 0 2 2000 2).2.1 (model, config)
      ∧ (∀ a, (GS.retryWithBackoff env 0 2 2000 2).1 = Except.ok a →
          GS.generateSmartContent env model config fb
            = (Except.ok a,
                List.replicate (GS.retryWithBackoff env 0 2 2000 2).2.1 (model, config)))
      ∧ (∀ e, (GS.retryWithBackoff env 0 2 2000 2).1 = Except.error e →
          (GS.isRecoverableError e = true → model ≠ fb →
            (GS.generateSmartContent env model config fb).1
              = (GS.retryWithBackoff env (GS.retryWithBackoff env 0 2 2000 2).2.1 2 4000 2).1
            ∧ ∀ p ∈ (GS.generateSmartContent env model config fb).2.drop
                (GS.retryWithBackoff env 0 2 2000 2).2.1,
                p.1 = fb ∧ p.2.thinkingConfig = none)
          ∧ (GS.isRecoverableError e = false ∨ model = fb →
              GS.generateSmartContent env model config fb
                = (Except.error e,
                    List.replicate (GS.retryWithBackoff env 0 2 2000 2).2.1 (model, config)))))
    ∧ (∀ (env : Nat → Res Response) (model : Str) (config : GenConfig) (fb : Str) (flag : Bool),
        (∀ a, (P6.retryWithBackoff (P6.runRequestOf env) 0 2 4000 2 false flag).1 = Except.ok a →
          P6.generateSmartContent env model config fb flag
            = (Except.ok a,
                List.replicate
                  (P6.retryWithBackoff (P6.runRequestOf env) 0 2 4000 2 false flag).2.2.1
                  (model, config),
                (P6.retryWithBackoff (P6.runRequestOf env) 0 2 4000 2 false flag).2.1))
        ∧ (∀ e,
            (P6.retryWithBackoff (P6.runRequestOf env) 0 2 4000 2 false flag).1
              = Except.error e →
            (P6.isRecoverableError e = true → model ≠ fb →
              (P6.generateSmartContent env model config fb flag).1
                = (P6.retryWithBackoff (P6.runRequestOf env)
                    (P6.retryWithBackoff (P6.runRequestOf env) 0 2 4000 2 false flag).2.2.1
                    2 6000 2 false
                    (P6.retryWithBackoff (P6.runRequestOf env) 0 2 4000 2 false flag).2.1).1
              ∧ ∀ p ∈ (P6.generateSmartContent env model config fb flag).2.1.drop
                  (P6.retryWithBackoff (P6.runRequestOf env) 0 2 4000 2 false flag).2.2.1,
                  p.1 = fb ∧ p.2.thinkingConfig = none ∧ p.2.responseSchema = none)
            ∧ (P6.isRecoverableError e = false ∨ model = fb →
                (P6.generateSmartContent env model config fb flag).1 = Except.error e
                ∧ (P6.generateSmartContent env model config fb flag).2.1
                  = List.replicate
                      (P6.retryWithBackoff (P6.runRequestOf env) 0 2 4000 2 false flag).2.2.1
                      (model, config)))) := by
  constructor
  · intro env model config fb
    refine ⟨?_, ?_, ?_⟩
    · rcases h1 : (GS.retryWithBackoff env 0 2 2000 2).1 with e | a
      · by_cases hc : GS.isRecoverableError e = true ∧ model ≠ fb
        · simp only [GS.generateSmartContent, h1, if_pos hc]
          exact List.take_left' (by simp)
        · simp only [GS.generateSmartContent, h1, if_neg hc]
          exact List.take_of_length_le (by simp)
      · simp only [GS.generateSmartContent, h1]
        exact List.take_of_length_le (by simp)
    · intro a ha
      simp only [GS.generateSmartContent, ha]
    · intro e he
      constructor
      · intro hrec hne
        simp only [GS.generateSmartContent, he, if_pos (And.intro hrec hne)]
        refine ⟨trivial, ?_⟩
        intro p hp
        rw [List.drop_append_of_le_length (by simp), List.drop_replicate,
          Nat.sub_self, List.replicate_zero, List.nil_append] at hp
        have hmem := List.eq_of_mem_replicate hp
        rw [hmem]
        refine ⟨rfl, ?_⟩
        by_cases ht : config.thinkingConfig.isSome
        · simp [ht]
        · simp only [ht, if_false]
          simpa using ht
      · intro hstop
        have hneg : ¬ (GS.isRecoverableError e = true ∧ model ≠ fb) := by
          rintro ⟨h1, h2⟩
          rcases hstop with h | h
          · rw [h1] at h; cases h
          · exact h2 h
        simp only [GS.generateSmartContent, he, if_neg hneg]
  · intro env model config fb flag
    constructor
    · intro a ha
      simp only [P6.generateSmartContent, ha]
    · intro e he
      constructor
      · intro hrec hne
        simp only [P6.generateSmartContent, he, if_pos (And.intro hrec hne)]
        refine ⟨trivial, ?_⟩
        intro p hp
        rw [List.drop_append_of_le_length (by simp), List.drop_replicate,
          Nat.sub_self, List.replicate_zero, List.nil_append] at hp
        have hmem := List.eq_of_mem_replicate hp
        rw [hmem]
        refine ⟨rfl, ?_, ?_⟩
        · by_cases ht : config.thinkingConfig.isSome
          · by_cases hs : config.responseSchema.isSome
            · simp [ht, hs]
            · simp [ht, hs]
          · by_cases hs : config.responseSchema.isSome
            · simp [ht, hs]
              simpa using ht
            · simp [ht, hs]
              simpa using ht
        · by_cases ht : config.thinkingConfig.isSome
          · by_cases hs : config.responseSchema.isSome
            · simp [ht, hs]
            · simp [ht, hs]
              simpa using hs
          · by_cases hs : config.responseSchema.isSome
            · simp [ht, hs]
            · simp [ht, hs]
              simpa using hs
      · intro hstop
        have hneg : ¬ (P6.isRecoverableError e = true ∧ model ≠ fb) := by
          rintro ⟨h1, h2⟩
          rcases hstop with h | h
          · rw [h1] at h; cases h
          · exact h2 h
        simp only [P6.generateSmartContent, he, if_neg hneg]
        constructor <;> trivial

/-- Claim C4 (witness): with an environment that rejects the first three
calls with a 429 and then succeeds, the dispatcher's outcome is the
fallback run's outcome. -/
theorem C4_witness :
    (GS.generateSmartContent fallbackEnvEx (("m1").data) ⟨some 1, some 2, 0⟩ (("m2").data)).1
      = (GS.retryWithBackoff fallbackEnvEx 3 2 4000 2).1 := by
  have hr1 : (GS.retryWithBackoff fallbackEnvEx 0 2 2000 2).1
      = Except.error ⟨some 429, none, none⟩ := rfl
  have h := ((C4_theorem.1 fallbackEnvEx (("m1").data) ⟨some 1, some 2, 0⟩
    (("m2").data)).2.2 ⟨some 429, none, none⟩ hr1).1 (by decide) (by decide)
  have hn : (GS.retryWithBackoff fallbackEnvEx 0 2 2000 2).2.1 = 3 := rfl
  rw [hn] at h
  exact h.1


/-- Claim C5: the response normalizer.  `cleanAndParseJSON` rejects a
missing, empty or whitespace-only response with the empty-response error;
on a fenced input it parses exactly the fenced content (the cited example
yields the object with field "a" equal to 1); and whenever no valid JSON
can be parsed from the computed slice it fails with the descriptive
user-facing invalid-JSON error — those two messages are the only error
values the function can produce, so a raw parse exception never escapes. -/
theorem C5_theorem :
    cleanAndParseJSON none = Except.error emptyResponseMsg
    ∧ (∀ t : Str, trimWS t = [] → cleanAndParseJSON (some t) = Except.error emptyResponseMsg)
    ∧ cleanAndParseJSON
        (some (("Here is the data:\n```json\n\x7b\"a\":1\x7d\n```\nThanks!").data))
        = Except.ok (Json.obj [((("a").data), Json.num (("1").data))])
    ∧ (∀ t : Str, trimWS t ≠ [] → jsonParse (normalizedSlice t) = none →
        cleanAndParseJSON (some t) = Except.error invalidJsonMsg)
    ∧ cleanAndParseJSON (some (("not json at all").data)) = Except.error invalidJsonMsg
    ∧ (∀ t inner : Str, extractFenced (trimWS t) = some inner →
        cleanAndParseJSON (some t)
          = match jsonParse (sliceBraces (trimWS inner)) with
            | some v => Except.ok v
            | none => Except.error invalidJsonMsg) := by
  refine ⟨rfl, ?_, rfl, ?_, rfl, ?_⟩
  · intro t h
    simp only [cleanAndParseJSON]
    rw [if_pos h]
  · intro t h1 h2
    simp only [cleanAndParseJSON]
    rw [if_neg h1, h2]
  · intro t inner hfence
    have hne : trimWS t ≠ [] := by
      intro hc
      rw [hc] at hfence
      exact Option.noConfusion hfence
    simp only [cleanAndParseJSON]
    rw [if_neg hne]
    have hslice : normalizedSlice t = sliceBraces (trimWS inner) := by
      simp only [normalizedSlice, hfence]
    rw [hslice]

/-- Claim C5 (witness): the theorem applied at concrete inputs — a
whitespace-only response, an unparseable response, and a fenced payload. -/
theorem C5_witness :
    cleanAndParseJSON (some (("  \n\t ").data)) = Except.error emptyResponseMsg
    ∧ cleanAndParseJSON (some (("garbage with no json").data)) = Except.error invalidJsonMsg
    ∧ cleanAndParseJSON (some (("x ```\x7b\"k\":true\x7d``` y").data))
      = match jsonParse (sliceBraces (trimWS (("\x7b\"k\":true\x7d").data))) with
        | some v => Except.ok v
        | none => Except.error invalidJsonMsg :=
  ⟨C5_theorem.2.1 _ rfl,
   C5_theorem.2.2.2.1 _ (by decide) rfl,
   C5_theorem.2.2.2.2.2 (("x ```\x7b\"k\":true\x7d``` y").data)
     (("\x7b\"k\":true\x7d").data) rfl⟩



/-- Claim C8 (counterexample).  The claim asserts the metadata fallback
honors `len(seoTitle) <= 60` for every keyword, but the `geminiService.ts`
fallback copies the keyword verbatim: a 61-character keyword yields a
61-character `seoTitle`. -/
theorem C8_counterexample :
    ¬ ((GS.generateMetadata (Except.error ⟨none, none, none⟩)
        (List.replicate 61 ('a'))).seoTitle.length ≤ 60)
    ∧ (GS.generateMetadata (Except.error ⟨none, none, none⟩)
        (List.replicate 61 ('a'))).seoTitle.length = 61 := by
  decide

/-- Claim C8 (amended).  Whenever the metadata model call fails, both
variants return the deterministic fallback derived purely from the keyword
with no core field left blank (given a nonempty keyword); the
`geminiService.ts` fallback honors the 60/156-character ceilings only when
the keyword itself is short enough (at most 60 resp. 143 characters), while
the `part_001` fallback truncates and honors them for every keyword. -/
theorem C8_theorem :
    (∀ (e : JsError) (keyword : Str),
      GS.generateMetadata (Except.error e) keyword = GS.generateMetadataFallback keyword)
    ∧ (∀ keyword : Str,
        (GS.generateMetadataFallback keyword).seoTitle = keyword
        ∧ (GS.generateMetadataFallback keyword).metaDescription
            = ("Artigo sobre ").data ++ keyword
        ∧ (GS.generateMetadataFallback keyword).targetKeyword = keyword
        ∧ (keyword ≠ [] →
            (GS.generateMetadataFallback keyword).seoTitle ≠ []
            ∧ (GS.generateMetadataFallback keyword).slug ≠ [])
        ∧ (GS.generateMetadataFallback keyword).metaDescription ≠ []
        ∧ (keyword.length ≤ 60 → (GS.generateMetadataFallback keyword).seoTitle.length ≤ 60)
        ∧ (keyword.length ≤ 143 →
            (GS.generateMetadataFallback keyword).metaDescription.length ≤ 156))
    ∧ (∀ (e : JsError) (keyword : Str),
        P1.generateMetadata (Except.error e) keyword = P1.generateMetadataFallback keyword)
    ∧ (∀ keyword : Str,
        (P1.generateMetadataFallback keyword).seoTitle.length ≤ 60
        ∧ (P1.generateMetadataFallback keyword).metaDescription.length ≤ 156
        ∧ (P1.generateMetadataFallback keyword).seoTitle ≠ []
        ∧ (P1.generateMetadataFallback keyword).metaDescription ≠ []) := by
  refine ⟨fun e k => rfl, ?_, fun e k => rfl, ?_⟩
  · intro keyword
    refine ⟨rfl, rfl, rfl, ?_, ?_, ?_, ?_⟩
    · intro hk
      constructor
      · simpa [GS.generateMetadataFallback] using hk
      · simp only [GS.generateMetadataFallback]
        intro hc
        exact hk (List.map_eq_nil_iff.mp hc)
    · simp [GS.generateMetadataFallback]
    · intro hlen
      simpa [GS.generateMetadataFallback] using hlen
    · intro hlen
      simp only [GS.generateMetadataFallback, List.length_append]
      simp only [List.length]
      omega
  · intro keyword
    refine ⟨?_, ?_, ?_, ?_⟩
    · simp [P1.generateMetadataFallback]
    · simp [P1.generateMetadataFallback]
    · simp only [P1.generateMetadataFallback, ne_eq, List.take_eq_nil_iff]
      simp
    · simp only [P1.generateMetadataFallback, ne_eq, List.take_eq_nil_iff]
      intro hc
      rcases hc with hc | hc
      · cases hc
      · have : (("Saiba tudo sobre ").data ++ keyword ++ (". Guia completo.").data).length
            = 0 := by rw [hc]; rfl
        simp [List.length_append] at this

/-- Claim C8 (witness): the amended theorem applied to the keyword
"solar". -/
theorem C8_witness :
    GS.generateMetadata (Except.error ⟨none, none, none⟩) (("solar").data)
      = GS.generateMetadataFallback (("solar").data)
    ∧ (GS.generateMetadataFallback (("solar").data)).seoTitle.length ≤ 60
    ∧ ((GS.generateMetadataFallback (("solar").data)).seoTitle ≠ []
        ∧ (GS.generateMetadataFallback (("solar").data)).slug ≠ [])
    ∧ (P1.generateMetadataFallback (("solar").data)).seoTitle.length ≤ 60 :=
  ⟨C8_theorem.1 ⟨none, none, none⟩ (("solar").data),
   (C8_theorem.2.1 (("solar").data)).2.2.2.2.2.1 (by decide),
   (C8_theorem.2.1 (("solar").data)).2.2.2.1 (by decide),
   (C8_theorem.2.2.2 (("solar").data)).1⟩



set_option maxRecDepth 100000 in
/-- Claim C9 (counterexample).  The claim says two invocations of
`generateTechnicalSeo` with the same Article and author produce identical
`schemaJsonLd` strings, but the function reads the wall clock and embeds it
as `datePublished`/`dateModified`: at two different clock readings the
same article yields different `schemaJsonLd`. -/
theorem C9_counterexample :
    (generateTechnicalSeo articleEx none (("2025-01-01T00:00:00.000Z").data)).1
      ≠ (generateTechnicalSeo articleEx none (("2025-01-02T00:00:00.000Z").data)).1 := by
  decide

/-- Claim C9 (amended).  `generateTechnicalSeo` makes no network call and
uses no randomness, but it does read the clock: `wordpressPostJson` is a
deterministic function of the Article alone — invariant under the clock
reading — while `schemaJsonLd` embeds the reading, so only same-time
invocations coincide. -/
theorem C9_theorem :
    ∀ (a : ArticleData) (auth : Option Author) (n1 n2 : Str),
      (generateTechnicalSeo a auth n1).2 = (generateTechnicalSeo a auth n2).2 := by
  intro a auth n1 n2
  rfl



/-- Claim C7 (counterexample).  The claim says ID extraction yields
`dQw4w9WgXcQ` for the shorts URL shape, but the `geminiService.ts` regex
has no `shorts` alternative: extraction fails on the shorts URL and the
resolver throws instead of returning an asset. -/
theorem C7_counterexample :
    GS.extractVideoId (("https://www.youtube.com/shorts/dQw4w9WgXcQ").data) = none
    ∧ GS.findRealYoutubeVideo (("q").data)
        ⟨[], [], ("https://www.youtube.com/shorts/dQw4w9WgXcQ").data, [], []⟩
      = Except.error (("Invalid YouTube URL format.").data) :=
  ⟨rfl, rfl⟩

/-- Claim C7 (amended).  The `part_006` resolver extracts `dQw4w9WgXcQ`
from all three URL shapes and fails on `https://example.com/video`; the
`geminiService.ts` resolver extracts it from the watch and short-link
shapes but fails on the shorts shape.  In both variants, whenever no ID
can be extracted from a nonempty URL the resolver throws instead of
returning an asset, and whenever it returns an asset the `embedHtml` and
`thumbnailUrl` are derived deterministically from the extracted id (and
the response's title text), never taken verbatim from the model
response. -/
theorem C7_theorem :
    P6.extractVideoId (("https://www.youtube.com/watch?v=dQw4w9WgXcQ").data)
      = some (("dQw4w9WgXcQ").data)
    ∧ P6.extractVideoId (("https://youtu.be/dQw4w9WgXcQ").data) = some (("dQw4w9WgXcQ").data)
    ∧ P6.extractVideoId (("https://www.youtube.com/shorts/dQw4w9WgXcQ").data)
      = some (("dQw4w9WgXcQ").data)
    ∧ P6.extractVideoId (("https://example.com/video").data) = none
    ∧ GS.extractVideoId (("https://www.youtube.com/watch?v=dQw4w9WgXcQ").data)
      = some (("dQw4w9WgXcQ").data)
    ∧ GS.extractVideoId (("https://youtu.be/dQw4w9WgXcQ").data) = some (("dQw4w9WgXcQ").data)
    ∧ GS.extractVideoId (("https://example.com/video").data) = none
    ∧ (∀ (q : Str) (r : ParsedVideo), r.url ≠ [] → GS.extractVideoId r.url = none →
        GS.findRealYoutubeVideo q r = Except.error (("Invalid YouTube URL format.").data))
    ∧ (∀ (q : Str) (r : ParsedVideo) (vd : VideoData),
        GS.findRealYoutubeVideo q r = Except.ok vd →
        ∃ id, GS.extractVideoId r.url = some id
          ∧ vd.embedHtml = embedHtmlOf id r.title
          ∧ vd.thumbnailUrl = thumbnailUrlOf id)
    ∧ (∀ (q : Str) (r : ParsedVideo), P6.extractVideoId r.url = none →
        P6.findRealYoutubeVideo q r
          = Except.error (("Invalid URL returned by AI.").data)
        ∨ P6.findRealYoutubeVideo q r
          = Except.error (("Invalid YouTube ID extracted.").data))
    ∧ (∀ (q : Str) (r : ParsedVideo) (vd : VideoData),
        P6.findRealYoutubeVideo q r = Except.ok vd →
        ∃ id, P6.extractVideoId r.url = some id
          ∧ vd.thumbnailUrl = thumbnailUrlOf id
          ∧ vd.embedHtml = embedHtmlOf id
              (if r.altText ≠ [] then r.altText
               else if r.title ≠ [] then r.title else ("Video Player").data)) := by
  refine ⟨rfl, rfl, rfl, rfl, rfl, rfl, rfl, ?_, ?_, ?_, ?_⟩
  · intro q r hu hx
    simp only [GS.findRealYoutubeVideo]
    rw [if_neg hu, hx]
  · intro q r vd h
    simp only [GS.findRealYoutubeVideo] at h
    by_cases hu : r.url = []
    · rw [if_pos hu] at h
      exact Except.noConfusion h
    · rw [if_neg hu] at h
      rcases hx : GS.extractVideoId r.url with _ | id
      · rw [hx] at h
        exact Except.noConfusion h
      · rw [hx] at h
        refine ⟨id, ?_, ?_, ?_⟩
        · first | exact hx | rfl
        · rw [← Except.ok.inj h]
        · rw [← Except.ok.inj h]
  · intro q r hx
    simp only [P6.findRealYoutubeVideo]
    by_cases hu : r.url = []
        ∨ (hasSub (("youtube.com").data) r.url = false
            ∧ hasSub (("youtu.be").data) r.url = false)
    · rw [if_pos hu]
      exact Or.inl rfl
    · rw [if_neg hu, hx]
      exact Or.inr rfl
  · intro q r vd h
    simp only [P6.findRealYoutubeVideo] at h
    by_cases hu : r.url = []
        ∨ (hasSub (("youtube.com").data) r.url = false
            ∧ hasSub (("youtu.be").data) r.url = false)
    · rw [if_pos hu] at h
      exact Except.noConfusion h
    · rw [if_neg hu] at h
      rcases hx : P6.extractVideoId r.url with _ | id
      · rw [hx] at h
        exact Except.noConfusion h
      · rw [hx] at h
        refine ⟨id, ?_, ?_, ?_⟩
        · first | exact hx | rfl
        · rw [← Except.ok.inj h]
        · rw [← Except.ok.inj h]

/-- Claim C7 (witness): the amended theorem's resolver clauses applied to a
concrete parsed payload carrying the watch URL, and to one carrying an
unrecognized URL. -/
theorem C7_witness :
    (GS.findRealYoutubeVideo (("q").data) parsedVideoEx).toOption.get!.embedHtml
      = embedHtmlOf (("dQw4w9WgXcQ").data) (("t").data)
    ∧ (GS.findRealYoutubeVideo (("q").data) parsedVideoEx).toOption.get!.thumbnailUrl
      = thumbnailUrlOf (("dQw4w9WgXcQ").data)
    ∧ GS.findRealYoutubeVideo (("q").data) ⟨[], [], ("https://example.com/video").data, [], []⟩
      = Except.error (("Invalid YouTube URL format.").data) := by
  obtain ⟨id, hx, he, ht⟩ := C7_theorem.2.2.2.2.2.2.2.2.1 (("q").data) parsedVideoEx
    ((GS.findRealYoutubeVideo (("q").data) parsedVideoEx).toOption.get!) rfl
  have hid : id = ("dQw4w9WgXcQ").data := by
    have hsome : some id = some (("dQw4w9WgXcQ").data) := by
      rw [← hx]
      rfl
    exact Option.some.inj hsome
  subst hid
  refine ⟨he, ht, ?_⟩
  exact C7_theorem.2.2.2.2.2.2.2.1 (("q").data)
    ⟨[], [], ("https://example.com/video").data, [], []⟩ (by decide) rfl



/-- Claim C3 (counterexample).  The claim says the short-circuit placeholder
is sized to the requested aspect ratio, but the circuit-breaker path always
returns the fixed 1200×800 reference: requesting 9:16 and 16:9 yields the
same placeholder string. -/
theorem C3_counterexample :
    (P6.generateImageFromPrompt (fun _ => Except.error ⟨none, none, none⟩) true
        (("a sunny field").data) (("9:16").data) (("gemini-2.5-flash-image").data)
        (("1K").data)).1
      = (P6.generateImageFromPrompt (fun _ => Except.error ⟨none, none, none⟩) true
        (("a sunny field").data) (("16:9").data) (("gemini-2.5-flash-image").data)
        (("1K").data)).1
    ∧ (P6.generateImageFromPrompt (fun _ => Except.error ⟨none, none, none⟩) true
        (("a sunny field").data) (("9:16").data) (("gemini-2.5-flash-image").data)
        (("1K").data)).1
      = Except.ok
          (("https://placehold.co/1200x800/1e293b/ffffff?text=a%20sunny%20field...").data) :=
  ⟨rfl, rfl⟩

/-- Claim C3 (amended).  Once the session-wide circuit-breaker flag is set,
every call to `generateImageFromPrompt` short-circuits with zero network
requests and returns the deterministic placeholder — the fixed 1200×800
reference annotated with the prompt truncated to 50 characters (not sized
to the requested aspect ratio) — and no operation of the session
(`retryWithBackoff`, `generateImageFromPrompt`, `editGeneratedImage`, the
only code touching the flag) ever clears it. -/
theorem C3_theorem :
    (∀ (env : Nat → Res ImgResponse) (prompt ar model res : Str),
      P6.generateImageFromPrompt env true prompt ar model res
        = (Except.ok (P6.circuitBreakerPlaceholder prompt), true, 0))
    ∧ (∀ (env : Nat → Res ImgResponse) (flag : Bool) (prompt ar model res : Str),
        flag = true →
          (P6.generateImageFromPrompt env flag prompt ar model res).2.1 = true
          ∧ (P6.generateImageFromPrompt env flag prompt ar model res).2.2 = 0)
    ∧ (∀ (α : Type) (op : Nat → Res α) (k retries delay factor : Nat) (isImg : Bool),
        (P6.retryWithBackoff op k retries delay factor isImg true).2.1 = true)
    ∧ (∀ (env : Nat → Res ImgResponse), (P6.editGeneratedImage env true).2.1 = true) := by
  refine ⟨?_, ?_, ?_, ?_⟩
  · intro env prompt ar model res
    rfl
  · intro env flag prompt ar model res hflag
    subst hflag
    exact ⟨rfl, rfl⟩
  · intro α op k retries delay factor isImg
    exact P6.retryWithBackoff_flag_monotone op k retries delay factor isImg
  · intro env
    rfl

/-- Claim C3 (witness): the amended theorem applied with the flag set. -/
theorem C3_witness :
    (P6.generateImageFromPrompt (fun _ => Except.error ⟨none, none, none⟩) true
        (("prompt text").data) (("1:1").data) (("gemini-2.5-flash-image").data)
        (("1K").data)).2.1 = true
    ∧ (P6.generateImageFromPrompt (fun _ => Except.error ⟨none, none, none⟩) true
        (("prompt text").data) (("1:1").data) (("gemini-2.5-flash-image").data)
        (("1K").data)).2.2 = 0 :=
  C3_theorem.2.1 (fun _ => Except.error ⟨none, none, none⟩) true (("prompt text").data)
    (("1:1").data) (("gemini-2.5-flash-image").data) (("1K").data) rfl



/-- Claim C10: a hero-image upload failure never aborts the publish.  With
complete WordPress configuration, whenever the post-creation request
succeeds, `publishToWordPress` returns the created post even if the hero
conversion or upload failed, the payload sent is a draft, and on any such
upload failure the payload carries no featured-media reference. -/
theorem C10_theorem :
    ∀ (article : ArticleData) (config : P0.WordPressConfig) (env : P0.PublishEnv)
      (pid : Nat) (link : Str),
      config.endpoint ≠ [] → config.username ≠ [] → config.applicationPassword ≠ [] →
      env.postResp = P0.PostResp.ok pid link →
      (P0.publishToWordPress article config env).1 = Except.ok (pid, link)
      ∧ (P0.publishToWordPress article config env).2 = some (P0.postPayloadOf article env)
      ∧ (P0.postPayloadOf article env).status = ("draft").data
      ∧ (P0.heroUploadFailed env = true →
          (P0.postPayloadOf article env).featured_media = none) := by
  intro article config env pid link h1 h2 h3 hpost
  have hcfg : ¬ (config.endpoint = [] ∨ config.username = []
      ∨ config.applicationPassword = []) := by
    rintro (h | h | h)
    · exact h1 h
    · exact h2 h
    · exact h3 h
  refine ⟨?_, ?_, rfl, ?_⟩
  · simp only [P0.publishToWordPress]
    rw [if_neg hcfg, hpost]
  · simp only [P0.publishToWordPress]
    rw [if_neg hcfg, hpost]
  · intro hfail
    have hzero : P0.featuredMediaIdOf article env = 0 := by
      simp only [P0.heroUploadFailed] at hfail
      simp only [P0.featuredMediaIdOf]
      rcases hh : P0.heroImageOf article with _ | hero
      · rfl
      · rcases hb : env.blobConv with m | u
        · rfl
        · rcases hm : env.mediaResp with mid | b | m
          · rw [hb, hm] at hfail
            simp at hfail
          · rfl
          · rfl
    simp only [P0.postPayloadOf, hzero]
    rfl

/-- Claim C10 (witness): the theorem applied to a run whose media upload
returns a non-OK response while post creation succeeds. -/
theorem C10_witness :
    (P0.publishToWordPress articleWithHeroEx
        ⟨("https://s.com").data, ("u").data, ("p").data⟩ publishEnvMediaFailEx).1
      = Except.ok (7, ("https://s.com/?p=7").data)
    ∧ (P0.postPayloadOf articleWithHeroEx publishEnvMediaFailEx).featured_media = none
    ∧ (P0.postPayloadOf articleWithHeroEx publishEnvMediaFailEx).status = ("draft").data := by
  have h := C10_theorem articleWithHeroEx
    ⟨("https://s.com").data, ("u").data, ("p").data⟩ publishEnvMediaFailEx
    7 (("https://s.com/?p=7").data) (by decide) (by decide) (by decide) rfl
  exact ⟨h.1, h.2.2.2 rfl, h.2.2.1⟩



/-- Claim C1: the pipeline orchestrator persists only completed articles.
Every article `handleGenerate` saves has status `completed`; anything is
saved only when all five stage calls succeeded (and then no error is
surfaced); and when the structure stage or the body stage throws (the
preceding stages having succeeded), the run persists nothing and surfaces
the translated user-facing error message. -/
theorem C1_theorem :
    ∀ (article : ArticleData) (authors : List Author) (env : Wizard.StageEnv) (nowIso : Str),
      (∀ a ∈ (Wizard.handleGenerate article authors env nowIso).saved,
        a.status = ArtStatus.completed)
      ∧ ((Wizard.handleGenerate article authors env nowIso).saved ≠ [] →
          env.serp.isOk = true ∧ env.structureRes.isOk = true ∧ env.content.isOk = true
          ∧ env.media.isOk = true ∧ env.metadata.isOk = true
          ∧ (Wizard.handleGenerate article authors env nowIso).errorMsg = none)
      ∧ (∀ e : JsError, ∀ s : SerpResult,
          env.serp = Except.ok s → env.structureRes = Except.error e →
          (Wizard.handleGenerate article authors env nowIso).saved = []
          ∧ ((article.topic = [] ∨ article.targetKeyword = []) ∨
              (Wizard.handleGenerate article authors env nowIso).errorMsg
                = some (Wizard.translateError e)))
      ∧ (∀ e : JsError, ∀ s : SerpResult, ∀ st : Wizard.StructureR,
          env.serp = Except.ok s → env.structureRes = Except.ok st →
          env.content = Except.error e →
          (Wizard.handleGenerate article authors env nowIso).saved = []
          ∧ ((article.topic = [] ∨ article.targetKeyword = []) ∨
              (Wizard.handleGenerate article authors env nowIso).errorMsg
                = some (Wizard.translateError e))) := by
  intro article authors env nowIso
  by_cases hg : article.topic = [] ∨ article.targetKeyword = []
  · refine ⟨?_, ?_, ?_, ?_⟩
    · intro a ha
      simp only [Wizard.handleGenerate, if_pos hg] at ha
      simp at ha
    · intro hne
      exfalso
      apply hne
      simp only [Wizard.handleGenerate, if_pos hg]
    · intro e s _ _
      refine ⟨?_, Or.inl hg⟩
      simp only [Wizard.handleGenerate, if_pos hg]
    · intro e s st _ _ _
      refine ⟨?_, Or.inl hg⟩
      simp only [Wizard.handleGenerate, if_pos hg]
  · rcases hs : env.serp with es | s
    · refine ⟨?_, ?_, ?_, ?_⟩
      · intro a ha
        simp only [Wizard.handleGenerate, if_neg hg, hs] at ha
        simp at ha
      · intro hne
        exfalso
        apply hne
        simp only [Wizard.handleGenerate, if_neg hg, hs]
      · intro e s hserp _
        exact Except.noConfusion hserp
      · intro e s st hserp _ _
        exact Except.noConfusion hserp
    · rcases hst : env.structureRes with est | st
      · refine ⟨?_, ?_, ?_, ?_⟩
        · intro a ha
          simp only [Wizard.handleGenerate, if_neg hg, hs, hst] at ha
          simp at ha
        · intro hne
          exfalso
          apply hne
          simp only [Wizard.handleGenerate, if_neg hg, hs, hst]
        · intro e s hserp hstr
          have he : est = e := Except.error.inj hstr
          subst he
          refine ⟨?_, Or.inr ?_⟩
          · simp only [Wizard.handleGenerate, if_neg hg, hs, hst]
          · simp only [Wizard.handleGenerate, if_neg hg, hs, hst]
        · intro e s st2 hserp hstr _
          exact Except.noConfusion hstr
      · rcases hc : env.content with ec | body
        · refine ⟨?_, ?_, ?_, ?_⟩
          · intro a ha
            simp only [Wizard.handleGenerate, if_neg hg, hs, hst, hc] at ha
            simp at ha
          · intro hne
            exfalso
            apply hne
            simp only [Wizard.handleGenerate, if_neg hg, hs, hst, hc]
          · intro e s hserp hstr
            exact Except.noConfusion hstr
          · intro e s st2 hserp hstr hcont
            have he : ec = e := Except.error.inj hcont
            subst he
            refine ⟨?_, Or.inr ?_⟩
            · simp only [Wizard.handleGenerate, if_neg hg, hs, hst, hc]
            · simp only [Wizard.handleGenerate, if_neg hg, hs, hst, hc]
        · rcases hm : env.media with em | media
          · refine ⟨?_, ?_, ?_, ?_⟩
            · intro a ha
              simp only [Wizard.handleGenerate, if_neg hg, hs, hst, hc, hm] at ha
              simp at ha
            · intro hne
              exfalso
              apply hne
              simp only [Wizard.handleGenerate, if_neg hg, hs, hst, hc, hm]
            · intro e s hserp hstr
              exact Except.noConfusion hstr
            · intro e s st2 hserp hstr hcont
              exact Except.noConfusion hcont
          · rcases hd : env.metadata with ed | seo
            · refine ⟨?_, ?_, ?_, ?_⟩
              · intro a ha
                simp only [Wizard.handleGenerate, if_neg hg, hs, hst, hc, hm, hd] at ha
                simp at ha
              · intro hne
                exfalso
                apply hne
                simp only [Wizard.handleGenerate, if_neg hg, hs, hst, hc, hm, hd]
              · intro e s hserp hstr
                exact Except.noConfusion hstr
              · intro e s st2 hserp hstr hcont
                exact Except.noConfusion hcont
            · refine ⟨?_, ?_, ?_, ?_⟩
              · intro a ha
                simp only [Wizard.handleGenerate, if_neg hg, hs, hst, hc, hm, hd] at ha
                simp only [List.mem_singleton] at ha
                rw [ha]
              · intro _
                refine ⟨rfl, rfl, rfl, rfl, rfl, ?_⟩
                simp only [Wizard.handleGenerate, if_neg hg, hs, hst, hc, hm, hd]
              · intro e s hserp hstr
                exact Except.noConfusion hstr
              · intro e s st2 hserp hstr hcont
                exact Except.noConfusion hcont

/-- Claim C1 (witness): a run whose body stage throws persists nothing and
surfaces the translated quota message; a run with all stages green
persists one completed article. -/
theorem C1_witness :
    (Wizard.handleGenerate wizardArticleEx [] stageEnvBodyFailEx (("now").data)).saved = []
    ∧ (Wizard.handleGenerate wizardArticleEx [] stageEnvBodyFailEx (("now").data)).errorMsg
      = some (Wizard.translateError ⟨some 429, none, some (("quota exceeded").data)⟩) := by
  have h := (C1_theorem wizardArticleEx [] stageEnvBodyFailEx (("now").data)).2.2.2
    ⟨some 429, none, some (("quota exceeded").data)⟩ serpResultEx structureResultEx rfl rfl rfl
  refine ⟨h.1, ?_⟩
  rcases h.2 with hbad | hmsg
  · exact absurd hbad (by decide)
  · exact hmsg


section InjectLemmas

theorem countOccs_split_head (pat x y : Str) (d : Char) (hy : y.head? = some d)
    (hd : d ∉ pat.drop 1) :
    countOccs pat (x ++ y) = countOccs pat x + countOccs pat y := by
  cases y with
  | nil => cases hy
  | cons c t =>
    have hc : c = d := Option.some.inj hy
    subst hc
    exact countOccs_append_right_char pat x c t hd

theorem countOccs_cons_of_head_ne {pat : Str} {c : Char} {rest : Str}
    (hne : pat ≠ []) (h : pat.head? ≠ some c) :
    countOccs pat (c :: rest) = countOccs pat rest := by
  cases pat with
  | nil => cases hne rfl
  | cons p pt =>
    apply countOccs_cons_ne
    apply isPrefixOf_cons_false
    intro hpc
    subst hpc
    exact h rfl

/-- No occurrence of `pat` inside the video-block template filled with
`pat`-free interpolated fields: the generic counting chain. -/
theorem countOccs_vs_block (pat : Str) (title embed caption tail : Str)
    (hnl : '\n' ∉ pat.drop 1) (hlt : '<' ∉ pat.drop 1)
    (hb1 : ∀ i, i < vsSeg1.length → vsSeg1.length < i + pat.length →
      ((vsSeg1.drop i).isPrefixOf pat) = false)
    (hc1 : countOccs pat vsSeg1 = 0)
    (hb2 : ∀ i, i < vsSeg2.length → vsSeg2.length < i + pat.length →
      ((vsSeg2.drop i).isPrefixOf pat) = false)
    (hc2 : countOccs pat vsSeg2 = 0)
    (hb3 : ∀ i, i < vsSeg3.length → vsSeg3.length < i + pat.length →
      ((vsSeg3.drop i).isPrefixOf pat) = false)
    (hc3 : countOccs pat vsSeg3 = 0)
    (hbp : ∀ i, i < vsCapPre.length → vsCapPre.length < i + pat.length →
      ((vsCapPre.drop i).isPrefixOf pat) = false)
    (hcp : countOccs pat vsCapPre = 0)
    (hbq : ∀ i, i < vsCapPost.length → vsCapPost.length < i + pat.length →
      ((vsCapPost.drop i).isPrefixOf pat) = false)
    (hcq : countOccs pat vsCapPost = 0)
    (hbe : ∀ i, i < vsPreEnd.length → vsPreEnd.length < i + pat.length →
      ((vsPreEnd.drop i).isPrefixOf pat) = false)
    (hce : countOccs pat vsPreEnd = 0)
    (ht : countOccs pat title = 0) (he : countOccs pat embed = 0)
    (hc : countOccs pat caption = 0) (htail : countOccs pat tail = 0) :
    countOccs pat
      (vsSeg1 ++ (title ++ (vsSeg2 ++ (embed ++ (vsSeg3
        ++ (vsCapBlock caption ++ (vsPreEnd ++ tail))))))) = 0 := by
  rw [countOccs_append_concrete pat vsSeg1 _ hb1, hc1]
  rw [countOccs_split_head pat title
    (vsSeg2 ++ (embed ++ (vsSeg3 ++ (vsCapBlock caption ++ (vsPreEnd ++ tail)))))
    '\n' rfl hnl, ht]
  rw [countOccs_append_concrete pat vsSeg2 _ hb2, hc2]
  rw [countOccs_split_head pat embed
    (vsSeg3 ++ (vsCapBlock caption ++ (vsPreEnd ++ tail))) '\n' rfl hnl, he]
  rw [countOccs_append_concrete pat vsSeg3 _ hb3, hc3]
  by_cases hcap : caption = []
  · subst hcap
    simp only [vsCapBlock, ne_eq, not_true_eq_false, if_false, List.nil_append]
    rw [countOccs_append_concrete pat vsPreEnd tail hbe, hce, htail]
  · rw [show vsCapBlock caption = vsCapPre ++ caption ++ vsCapPost from by
      simp [vsCapBlock, hcap]]
    simp only [List.append_assoc]
    rw [countOccs_append_concrete pat vsCapPre _ hbp, hcp]
    rw [countOccs_split_head pat caption (vsCapPost ++ (vsPreEnd ++ tail)) '<' rfl hlt, hc]
    rw [countOccs_append_concrete pat vsCapPost _ hbq, hcq]
    rw [countOccs_append_concrete pat vsPreEnd tail hbe, hce, htail]

set_option maxRecDepth 1000000 in
/-- The start marker does not occur in a filled video-block body whose
interpolated fields are free of it. -/
theorem countOccs_SP_block (title embed caption tail : Str)
    (ht : countOccs videoStartMarker title = 0)
    (he : countOccs videoStartMarker embed = 0)
    (hc : countOccs videoStartMarker caption = 0)
    (htail : countOccs videoStartMarker tail = 0) :
    countOccs videoStartMarker
      (vsSeg1 ++ (title ++ (vsSeg2 ++ (embed ++ (vsSeg3
        ++ (vsCapBlock caption ++ (vsPreEnd ++ tail))))))) = 0 :=
  countOccs_vs_block videoStartMarker title embed caption tail (by decide) (by decide)
    (by decide) (by decide) (by decide) (by decide) (by decide) (by decide)
    (by decide) (by decide) (by decide) (by decide) (by decide) (by decide)
    ht he hc htail

set_option maxRecDepth 1000000 in
/-- The end marker does not occur in a filled video-block body whose
interpolated fields are free of it. -/
theorem countOccs_EP_block (title embed caption tail : Str)
    (ht : countOccs videoEndMarker title = 0)
    (he : countOccs videoEndMarker embed = 0)
    (hc : countOccs videoEndMarker caption = 0)
    (htail : countOccs videoEndMarker tail = 0) :
    countOccs videoEndMarker
      (vsSeg1 ++ (title ++ (vsSeg2 ++ (embed ++ (vsSeg3
        ++ (vsCapBlock caption ++ (vsPreEnd ++ tail))))))) = 0 :=
  countOccs_vs_block videoEndMarker title embed caption tail (by decide) (by decide)
    (by decide) (by decide) (by decide) (by decide) (by decide) (by decide)
    (by decide) (by decide) (by decide) (by decide) (by decide) (by decide)
    ht he hc htail

/-- A mid part headed by `<` blocks straddling on both sides. -/
theorem countOccs_mid_of_head_lt (pat mid A B : Str) (hmid : mid.head? = some '<')
    (hlt : '<' ∉ pat.drop 1)
    (hb : ∀ i, i < mid.length → mid.length < i + pat.length →
      ((mid.drop i).isPrefixOf pat) = false)
    (hm : countOccs pat mid = 0) (hA : countOccs pat A = 0) (hB : countOccs pat B = 0) :
    countOccs pat (A ++ (mid ++ B)) = 0 := by
  have hy : (mid ++ B).head? = some '<' := by
    cases mid with
    | nil => cases hmid
    | cons c t => exact hmid
  rw [countOccs_split_head pat A (mid ++ B) '<' hy hlt, hA]
  rw [countOccs_append_concrete pat mid B hb, hm, hB]

/-- A string without the start marker passes through the strip untouched. -/
theorem stripVideoBlocks_of_no_marker {s : Str}
    (h : countOccs videoStartMarker s = 0) : stripVideoBlocks s = s :=
  stripVideoBlocksAux_of_none _ (indexOf_eq_none_of_countOccs_zero (by decide) h)

/-- One strip pass removes exactly the bracketed block when the prefix has no
start marker, the body has no end marker and the suffix has no start marker. -/
theorem stripAux_locate (f : Nat) (x w B : Str)
    (hx : countOccs videoStartMarker x = 0)
    (hw : countOccs videoEndMarker w = 0)
    (hB : countOccs videoStartMarker B = 0) :
    stripVideoBlocksAux (f + 1) (x ++ (videoStartMarker ++ (w ++ (videoEndMarker ++ B))))
      = x ++ B := by
  have hi : indexOf videoStartMarker
      (x ++ (videoStartMarker ++ (w ++ (videoEndMarker ++ B)))) = some x.length :=
    indexOf_append_locate _ _ _ (by decide) hx (isPrefixOf_iff.mpr ⟨_, rfl⟩)
  have hrest : (x ++ (videoStartMarker ++ (w ++ (videoEndMarker ++ B)))).drop
      (x.length + videoStartMarker.length) = w ++ (videoEndMarker ++ B) := by
    rw [List.drop_append, List.drop_left]
  have hj : indexOf videoEndMarker
      ((x ++ (videoStartMarker ++ (w ++ (videoEndMarker ++ B)))).drop
        (x.length + videoStartMarker.length)) = some w.length := by
    rw [hrest]
    exact indexOf_append_locate _ _ _ (by decide) hw (isPrefixOf_iff.mpr ⟨_, rfl⟩)
  rw [stripVideoBlocksAux_step f _ x.length w.length hi hj]
  rw [hrest]
  have hdrop2 : (w ++ (videoEndMarker ++ B)).drop (w.length + videoEndMarker.length)
      = B := by
    rw [List.drop_append, List.drop_left]
  rw [hdrop2]
  rw [stripVideoBlocksAux_of_none f (indexOf_eq_none_of_countOccs_zero (by decide) hB)]
  rw [List.take_left]

/-- Stripping a freshly injected fragment removes the block but keeps the
newline the injection added plus the block's own leading newline. -/
theorem strip_injected (A B : Str) (v : VideoData)
    (hASP : countOccs videoStartMarker A = 0)
    (hBSP : countOccs videoStartMarker B = 0)
    (htE : countOccs videoEndMarker v.title = 0)
    (heE : countOccs videoEndMarker v.embedHtml = 0)
    (hcE : countOccs videoEndMarker v.caption = 0) :
    stripVideoBlocks ((A ++ ("</p>").data) ++ ('\n' :: buildVideoSection v) ++ B)
      = A ++ (("</p>").data ++ ('\n' :: '\n' :: B)) := by
  have hx : countOccs videoStartMarker (A ++ (("</p>").data ++ ['\n', '\n'])) = 0 :=
    countOccs_mid_of_head_lt videoStartMarker (("</p>").data) A ['\n', '\n'] rfl
      (by decide) (by decide) (by decide) hASP (by decide)
  have hw : countOccs videoEndMarker
      (vsSeg1 ++ (v.title ++ (vsSeg2 ++ (v.embedHtml ++ (vsSeg3
        ++ (vsCapBlock v.caption ++ (vsPreEnd ++ ([] : Str)))))))) = 0 :=
    countOccs_EP_block v.title v.embedHtml v.caption [] htE heE hcE (by decide)
  have hs : (A ++ ("</p>").data) ++ ('\n' :: buildVideoSection v) ++ B
      = (A ++ (("</p>").data ++ ['\n', '\n']))
        ++ (videoStartMarker
          ++ ((vsSeg1 ++ (v.title ++ (vsSeg2 ++ (v.embedHtml ++ (vsSeg3
              ++ (vsCapBlock v.caption ++ (vsPreEnd ++ ([] : Str))))))))
            ++ (videoEndMarker ++ B))) := by
    rw [buildVideoSection_decomp]
    simp [List.append_assoc]
  rw [stripVideoBlocks, hs]
  have hpos : 0 < ((A ++ (("</p>").data ++ ['\n', '\n']))
      ++ (videoStartMarker
        ++ ((vsSeg1 ++ (v.title ++ (vsSeg2 ++ (v.embedHtml ++ (vsSeg3
            ++ (vsCapBlock v.caption ++ (vsPreEnd ++ ([] : Str))))))))
          ++ (videoEndMarker ++ B)))).length := by
    simp only [List.length_append]
    have h34 : 0 < videoStartMarker.length := by decide
    omega
  rw [show ((A ++ (("</p>").data ++ ['\n', '\n']))
      ++ (videoStartMarker
        ++ ((vsSeg1 ++ (v.title ++ (vsSeg2 ++ (v.embedHtml ++ (vsSeg3
            ++ (vsCapBlock v.caption ++ (vsPreEnd ++ ([] : Str))))))))
          ++ (videoEndMarker ++ B)))).length
      = (((A ++ (("</p>").data ++ ['\n', '\n']))
          ++ (videoStartMarker
            ++ ((vsSeg1 ++ (v.title ++ (vsSeg2 ++ (v.embedHtml ++ (vsSeg3
                ++ (vsCapBlock v.caption ++ (vsPreEnd ++ ([] : Str))))))))
              ++ (videoEndMarker ++ B)))).length - 1) + 1 from by omega]
  rw [stripAux_locate _ _ _ _ hx hw hBSP]
  simp [List.append_assoc]

/-- Insertion goes right after the first paragraph close of the cleaned body. -/
theorem injectVideo_p_case (h A B : Str) (v : VideoData) (hemb : v.embedHtml ≠ [])
    (hstrip : stripVideoBlocks h = A ++ (("</p>").data ++ B))
    (hA : countOccs (("</p>").data) A = 0) :
    injectVideoIntoHtml h (some v)
      = (A ++ ("</p>").data) ++ ('\n' :: buildVideoSection v) ++ B := by
  have hidx : indexOf (("</p>").data) (A ++ (("</p>").data ++ B)) = some A.length :=
    indexOf_append_locate _ _ _ (by decide) hA (isPrefixOf_iff.mpr ⟨_, rfl⟩)
  have htake : (A ++ (("</p>").data ++ B)).take (A.length + 4) = A ++ ("</p>").data := by
    rw [List.take_append, List.take_left' (show (("</p>").data).length = 4 from rfl)]
  have hdrop : (A ++ (("</p>").data ++ B)).drop (A.length + 4) = B := by
    rw [List.drop_append, List.drop_left' (show (("</p>").data).length = 4 from rfl)]
  simp only [injectVideoIntoHtml, if_neg hemb, hstrip, hidx, htake, hdrop]

set_option maxRecDepth 1000000 in
/-- The doubly injected fragment carries exactly one start marker. -/
theorem countOccs_SP_double (A B : Str) (v : VideoData)
    (hASP : countOccs videoStartMarker A = 0)
    (hBSP : countOccs videoStartMarker B = 0)
    (htS : countOccs videoStartMarker v.title = 0)
    (heS : countOccs videoStartMarker v.embedHtml = 0)
    (hcS : countOccs videoStartMarker v.caption = 0) :
    countOccs videoStartMarker
      ((A ++ ("</p>").data) ++ ('\n' :: buildVideoSection v) ++ ('\n' :: '\n' :: B)) = 1 := by
  have hs : (A ++ ("</p>").data) ++ ('\n' :: buildVideoSection v) ++ ('\n' :: '\n' :: B)
      = (A ++ (("</p>").data ++ ['\n', '\n']))
        ++ (videoStartMarker ++ (vsSeg1 ++ (v.title ++ (vsSeg2 ++ (v.embedHtml ++ (vsSeg3
            ++ (vsCapBlock v.caption
              ++ (vsPreEnd ++ (videoEndMarker ++ ('\n' :: '\n' :: B)))))))))) := by
    rw [buildVideoSection_decomp]
    simp [List.append_assoc]
  rw [hs]
  have hx : countOccs videoStartMarker (A ++ (("</p>").data ++ ['\n', '\n'])) = 0 :=
    countOccs_mid_of_head_lt videoStartMarker (("</p>").data) A ['\n', '\n'] rfl
      (by decide) (by decide) (by decide) hASP (by decide)
  rw [countOccs_split_head videoStartMarker (A ++ (("</p>").data ++ ['\n', '\n']))
    (videoStartMarker ++ (vsSeg1 ++ (v.title ++ (vsSeg2 ++ (v.embedHtml ++ (vsSeg3
      ++ (vsCapBlock v.caption
        ++ (vsPreEnd ++ (videoEndMarker ++ ('\n' :: '\n' :: B))))))))))
    '<' rfl (by decide), hx]
  have h1 : countOccs videoStartMarker ('\n' :: '\n' :: B)
      = countOccs videoStartMarker ('\n' :: B) :=
    countOccs_cons_of_head_ne (by decide) (by decide)
  have h2 : countOccs videoStartMarker ('\n' :: B) = countOccs videoStartMarker B :=
    countOccs_cons_of_head_ne (by decide) (by decide)
  have htail : countOccs videoStartMarker (videoEndMarker ++ ('\n' :: '\n' :: B)) = 0 := by
    rw [countOccs_append_concrete videoStartMarker videoEndMarker _ (by decide),
      show countOccs videoStartMarker videoEndMarker = 0 from by decide, h1, h2, hBSP]
  have hw : countOccs videoStartMarker
      (vsSeg1 ++ (v.title ++ (vsSeg2 ++ (v.embedHtml ++ (vsSeg3
        ++ (vsCapBlock v.caption
          ++ (vsPreEnd ++ (videoEndMarker ++ ('\n' :: '\n' :: B))))))))) = 0 :=
    countOccs_SP_block v.title v.embedHtml v.caption
      (videoEndMarker ++ ('\n' :: '\n' :: B)) htS heS hcS htail
  rw [countOccs_append_concrete videoStartMarker videoStartMarker _ (by decide), hw,
    show countOccs videoStartMarker videoStartMarker = 1 from by decide]

/-- Second fallback tier: no paragraph close in the cleaned body, so insertion
goes right after the first H1 close. -/
theorem injectVideo_h1_case (h A B : Str) (v : VideoData) (hemb : v.embedHtml ≠ [])
    (hstrip : stripVideoBlocks h = A ++ (("</h1>").data ++ B))
    (hnoP : countOccs (("</p>").data) (A ++ (("</h1>").data ++ B)) = 0)
    (hAh : countOccs (("</h1>").data) A = 0) :
    injectVideoIntoHtml h (some v)
      = (A ++ ("</h1>").data) ++ ('\n' :: buildVideoSection v) ++ B := by
  have hidxP : indexOf (("</p>").data) (A ++ (("</h1>").data ++ B)) = none :=
    indexOf_eq_none_of_countOccs_zero (by decide) hnoP
  have hidxH : indexOf (("</h1>").data) (A ++ (("</h1>").data ++ B)) = some A.length :=
    indexOf_append_locate _ _ _ (by decide) hAh (isPrefixOf_iff.mpr ⟨_, rfl⟩)
  have htake : (A ++ (("</h1>").data ++ B)).take (A.length + 5)
      = A ++ ("</h1>").data := by
    rw [List.take_append, List.take_left' (show (("</h1>").data).length = 5 from rfl)]
  have hdrop : (A ++ (("</h1>").data ++ B)).drop (A.length + 5) = B := by
    rw [List.drop_append, List.drop_left' (show (("</h1>").data).length = 5 from rfl)]
  simp only [injectVideoIntoHtml, if_neg hemb, hstrip, hidxP, hidxH, htake, hdrop]

/-- Last fallback tier: neither close tag in the cleaned body, so the block is
prepended. -/
theorem injectVideo_prepend_case (h c : Str) (v : VideoData) (hemb : v.embedHtml ≠ [])
    (hstrip : stripVideoBlocks h = c)
    (hnoP : countOccs (("</p>").data) c = 0)
    (hnoH : countOccs (("</h1>").data) c = 0) :
    injectVideoIntoHtml h (some v) = buildVideoSection v ++ ('\n' :: c) := by
  have hidxP : indexOf (("</p>").data) c = none :=
    indexOf_eq_none_of_countOccs_zero (by decide) hnoP
  have hidxH : indexOf (("</h1>").data) c = none :=
    indexOf_eq_none_of_countOccs_zero (by decide) hnoH
  simp only [injectVideoIntoHtml, if_neg hemb, hstrip, hidxP, hidxH]

end InjectLemmas

/-- C2: the claim says injecting twice is byte-identical to injecting once.
It is not: on `"<p>x</p>"` the second injection strips the first block but
leaves behind the newline it had added plus the block's own leading newline,
so the two results differ by a blank line. -/
theorem C2_counterexample :
    injectVideoIntoHtml
        (injectVideoIntoHtml (("<p>x</p>").data) (some vW)) (some vW)
      ≠ injectVideoIntoHtml (("<p>x</p>").data) (some vW) := by
  have h1 : injectVideoIntoHtml (("<p>x</p>").data) (some vW)
      = (("<p>x").data ++ ("</p>").data) ++ ('\n' :: buildVideoSection vW)
          ++ ([] : Str) := by
    apply injectVideo_p_case
    · decide
    · have h0 : countOccs videoStartMarker (("<p>x</p>").data) = 0 := by decide
      exact (stripVideoBlocks_of_no_marker h0).trans (by decide)
    · decide
  have h2 : injectVideoIntoHtml
      (injectVideoIntoHtml (("<p>x</p>").data) (some vW)) (some vW)
      = (("<p>x").data ++ ("</p>").data) ++ ('\n' :: buildVideoSection vW)
          ++ ('\n' :: '\n' :: ([] : Str)) := by
    rw [h1]
    apply injectVideo_p_case
    · decide
    · exact strip_injected (("<p>x").data) ([] : Str) vW (by decide) (by decide)
        (by decide) (by decide) (by decide)
    · decide
  rw [h2, h1]
  intro heq
  have hlen := congrArg List.length heq
  simp only [List.length_append, List.length_cons, List.length_nil] at hlen
  omega

/-- C2 (amended): absence of an asset or empty embed markup returns the input
unchanged; on a fragment `A ++ "</p>" ++ B` whose pieces are free of the
wrapper markers, injection inserts the freshly built block right after the
first paragraph close; injecting a second time strips the old block and
re-inserts, which keeps exactly one occurrence of the wrapper start marker but
is not byte-identical to a single injection: a leftover blank line remains.
Insertion follows the ordered fallback: after the first paragraph close, else
after the first H1 close (when the cleaned body has no paragraph close), else
prepended (when it has neither close tag). -/
theorem C2_theorem (A B : Str) (v : VideoData)
    (hemb : v.embedHtml ≠ [])
    (hA : countOccs (("</p>").data) A = 0)
    (hASP : countOccs videoStartMarker A = 0)
    (hBSP : countOccs videoStartMarker B = 0)
    (htS : countOccs videoStartMarker v.title = 0)
    (heS : countOccs videoStartMarker v.embedHtml = 0)
    (hcS : countOccs videoStartMarker v.caption = 0)
    (htE : countOccs videoEndMarker v.title = 0)
    (heE : countOccs videoEndMarker v.embedHtml = 0)
    (hcE : countOccs videoEndMarker v.caption = 0) :
    (∀ h, injectVideoIntoHtml h none = h)
    ∧ (∀ h w, w.embedHtml = [] → injectVideoIntoHtml h (some w) = h)
    ∧ injectVideoIntoHtml ((A ++ ("</p>").data) ++ B) (some v)
        = (A ++ ("</p>").data) ++ ('\n' :: buildVideoSection v) ++ B
    ∧ injectVideoIntoHtml
        ((A ++ ("</p>").data) ++ ('\n' :: buildVideoSection v) ++ B) (some v)
        = (A ++ ("</p>").data) ++ ('\n' :: buildVideoSection v) ++ ('\n' :: '\n' :: B)
    ∧ countOccs videoStartMarker
        ((A ++ ("</p>").data) ++ ('\n' :: buildVideoSection v) ++ ('\n' :: '\n' :: B))
        = 1
    ∧ (∀ A2 B2 : Str, countOccs (("</p>").data) A2 = 0 →
        countOccs (("</p>").data) B2 = 0 →
        countOccs (("</h1>").data) A2 = 0 →
        countOccs videoStartMarker A2 = 0 → countOccs videoStartMarker B2 = 0 →
        injectVideoIntoHtml ((A2 ++ ("</h1>").data) ++ B2) (some v)
          = (A2 ++ ("</h1>").data) ++ ('\n' :: buildVideoSection v) ++ B2)
    ∧ (∀ h, countOccs (("</p>").data) h = 0 → countOccs (("</h1>").data) h = 0 →
        countOccs videoStartMarker h = 0 →
        injectVideoIntoHtml h (some v) = buildVideoSection v ++ ('\n' :: h)) := by
  refine ⟨fun h => rfl, fun h w hw => by simp [injectVideoIntoHtml, hw],
    ?_, ?_, ?_, ?_, ?_⟩
  · apply injectVideo_p_case _ _ _ _ hemb _ hA
    have h0 : countOccs videoStartMarker ((A ++ ("</p>").data) ++ B) = 0 := by
      rw [List.append_assoc]
      exact countOccs_mid_of_head_lt videoStartMarker (("</p>").data) A B rfl
        (by decide) (by decide) (by decide) hASP hBSP
    exact (stripVideoBlocks_of_no_marker h0).trans (List.append_assoc _ _ _)
  · exact injectVideo_p_case _ _ _ _ hemb
      (strip_injected A B v hASP hBSP htE heE hcE) hA
  · exact countOccs_SP_double A B v hASP hBSP htS heS hcS
  · intro A2 B2 hP2 hBp2 hAh2 hAS2 hBS2
    apply injectVideo_h1_case _ _ _ _ hemb ?_ ?_ hAh2
    · have h0 : countOccs videoStartMarker ((A2 ++ ("</h1>").data) ++ B2) = 0 := by
        rw [List.append_assoc]
        exact countOccs_mid_of_head_lt videoStartMarker (("</h1>").data) A2 B2 rfl
          (by decide) (by decide) (by decide) hAS2 hBS2
      exact (stripVideoBlocks_of_no_marker h0).trans (List.append_assoc _ _ _)
    · exact countOccs_mid_of_head_lt (("</p>").data) (("</h1>").data) A2 B2 rfl
        (by decide) (by decide) (by decide) hP2 hBp2
  · intro h hP3 hH3 hS3
    exact injectVideo_prepend_case h h v hemb (stripVideoBlocks_of_no_marker hS3)
      hP3 hH3

/-- C2 witness: the amended statement at a concrete fragment and asset. -/
theorem C2_witness :
    (∀ h, injectVideoIntoHtml h none = h)
    ∧ (∀ h w, w.embedHtml = [] → injectVideoIntoHtml h (some w) = h)
    ∧ injectVideoIntoHtml
        (((("<p>x").data ++ ("</p>").data) ++ ("<em>y</em>").data)) (some vW)
        = (("<p>x").data ++ ("</p>").data) ++ ('\n' :: buildVideoSection vW)
            ++ ("<em>y</em>").data
    ∧ injectVideoIntoHtml
        ((("<p>x").data ++ ("</p>").data) ++ ('\n' :: buildVideoSection vW)
          ++ ("<em>y</em>").data) (some vW)
        = (("<p>x").data ++ ("</p>").data) ++ ('\n' :: buildVideoSection vW)
            ++ ('\n' :: '\n' :: ("<em>y</em>").data)
    ∧ countOccs videoStartMarker
        ((("<p>x").data ++ ("</p>").data) ++ ('\n' :: buildVideoSection vW)
          ++ ('\n' :: '\n' :: ("<em>y</em>").data)) = 1
    ∧ (∀ A2 B2 : Str, countOccs (("</p>").data) A2 = 0 →
        countOccs (("</p>").data) B2 = 0 →
        countOccs (("</h1>").data) A2 = 0 →
        countOccs videoStartMarker A2 = 0 → countOccs videoStartMarker B2 = 0 →
        injectVideoIntoHtml ((A2 ++ ("</h1>").data) ++ B2) (some vW)
          = (A2 ++ ("</h1>").data) ++ ('\n' :: buildVideoSection vW) ++ B2)
    ∧ (∀ h, countOccs (("</p>").data) h = 0 → countOccs (("</h1>").data) h = 0 →
        countOccs videoStartMarker h = 0 →
        injectVideoIntoHtml h (some vW) = buildVideoSection vW ++ ('\n' :: h)) :=
  C2_theorem (("<p>x").data) (("<em>y</em>").data) vW (by decide) (by decide)
    (by decide) (by decide) (by decide) (by decide) (by decide) (by decide)
    (by decide) (by decide)

end ArtigoGenio
